import Mathlib

/-!
Shallow embedding of the member balance ledger and fund-transfer core of the
genglo kiosk application: the OTP-gated peer-to-peer transfer flow
(`mobile_api/views.py`, `mobile_api/models.py`), the administrative balance
refill and refund flows (`admin_panel/views.py`), and the ledger
(`members.models.BalanceTransaction`) they write.

Money is modelled in centavos (`Int`): every balance and amount in the source
is a fixed-point decimal with two fractional digits, so the arithmetic of the
source (`+`, `-`, `quantize(Decimal('0.01'))`) is exact integer arithmetic
here, and `quantize` is the identity.  Timestamps are integers (seconds).
The database is a `State` record of lists; each ORM `save()` / `create()` /
`delete()` is an explicit functional update of that record.
-/

namespace Genglo

/-- Fixed-point currency amount, in centavos. -/
abbrev Money := Int

/-- `members.models.Member` (fields used by the balance/transfer/refund core).
The model file itself is not among the provided sources; the fields are those
read and written by `mobile_api/views.py` and `admin_panel/views.py`
(`id`, `rfid_card_number`, `email`, `full_name`, `is_active`, `balance`,
`last_transaction`). -/
structure Member where
  id : Nat
  rfid_card_number : String
  email : String
  full_name : String
  is_active : Bool
  balance : Money
  last_transaction : Option Int
deriving Repr, DecidableEq

/-- Modelled from the spec: `Member.add_balance` lives in `members/models.py`,
which is not among the provided sources; spec §4.2 (`applyDelta` with a
positive delta) adds the amount to the current balance. -/
def Member.add_balance (m : Member) (amount : Money) : Member :=
  { m with balance := m.balance + amount }

/-- `members.models.BalanceTransaction.transaction_type` values, as written by
the call sites in `mobile_api/views.py` and `admin_panel/views.py`. -/
inductive EntryType
  | deposit
  | deduction
deriving Repr, DecidableEq

/-- `members.models.BalanceTransaction`: one immutable ledger entry.  The model
file is not among the provided sources; the fields are exactly those populated
at every `BalanceTransaction.objects.create` call site. -/
structure BalanceTransaction where
  member_id : Nat
  transaction_type : EntryType
  amount : Money
  balance_before : Money
  balance_after : Money
  notes : String
deriving Repr, DecidableEq

/-- `mobile_api.models.FundTransferOTP`. -/
structure FundTransferOTP where
  id : Nat
  member_id : Nat
  recipient_rfid : String
  amount : Money
  notes : String
  otp_code : String
  created_at : Int
  expires_at : Int
  is_used : Bool
  verified_at : Option Int
deriving Repr, DecidableEq

/-- `transactions.models.TransactionItem` (fields used by the refund flow). -/
structure TransactionItem where
  product_id : Option Nat
  quantity : Int
deriving Repr, DecidableEq

/-- `transactions.models.Transaction` (a sale).  The model file is not among
the provided sources; the fields are those read and written by
`admin_panel/views.py`.  `status` is one of the strings in `STATUS_CHOICES`. -/
structure SaleTransaction where
  id : Nat
  transaction_number : String
  member_id : Option Nat
  total_amount : Money
  payment_method : String
  amount_paid : Money
  amount_from_balance : Money
  status : String
  notes : String
  items : List TransactionItem
deriving Repr, DecidableEq

/-- Modelled from the spec: `Transaction.STATUS_CHOICES` lives in
`transactions/models.py`, which is not among the provided sources; the spec
(§3, "Completed Sale / Refund link") gives the status enumeration
{pending, completed, cancelled}, and these three are exactly the status
strings used throughout `admin_panel/views.py`. -/
def STATUS_CHOICES : List String := ["pending", "completed", "cancelled"]

/-- Modelled from the spec: `Transaction.PAYMENT_METHODS` lives in
`transactions/models.py`, which is not among the provided sources; the method
strings observed in `admin_panel/views.py` are "cash", "debit" and "balance". -/
def PAYMENT_METHODS : List String := ["cash", "debit", "balance"]

/-- `inventory.models.Product` (fields used by the refund stock restore). -/
structure Product where
  id : Nat
  stock_quantity : Int
deriving Repr, DecidableEq

/-- The database state touched by the ledger/transfer/refund core. -/
structure State where
  members : List Member
  balance_transactions : List BalanceTransaction
  transfer_otps : List FundTransferOTP
  sale_transactions : List SaleTransaction
  products : List Product
  next_otp_id : Nat
deriving Repr, DecidableEq

/-! ### ORM lookups and row updates -/

/-- `Member.objects.get(id=..., is_active=True)` / session member resolution
(`get_member_from_request` resolves an *active* member). -/
def findActiveMemberById (s : State) (mid : Nat) : Option Member :=
  s.members.find? (fun m => m.id == mid && m.is_active)

/-- `Member.objects.get(rfid_card_number=..., is_active=True)`. -/
def findActiveMemberByRfid (s : State) (rfid : String) : Option Member :=
  s.members.find? (fun m => m.rfid_card_number == rfid && m.is_active)

/-- `transaction.member` dereference (by id, regardless of active flag). -/
def findMemberById (s : State) (mid : Nat) : Option Member :=
  s.members.find? (fun m => m.id == mid)

/-- Write to the member row with the given id (`member.save()`): the row is
replaced by its image under `f`, every other row is untouched. -/
def updateMemberRow (ms : List Member) (mid : Nat) (f : Member → Member) : List Member :=
  ms.map (fun m => if m.id == mid then f m else m)

/-- Write a member row's balance (`member.balance = ...; member.save()`). -/
def setMemberBalance (ms : List Member) (mid : Nat) (b : Money) : List Member :=
  updateMemberRow ms mid (fun m => { m with balance := b })

/-- Write a member row's last-activity stamp (`member.last_transaction = now`). -/
def setMemberLastTransaction (ms : List Member) (mid : Nat) (t : Int) : List Member :=
  updateMemberRow ms mid (fun m => { m with last_transaction := some t })

/-! ### `mobile_api.models.FundTransferOTP` methods -/

/-- `FundTransferOTP.is_valid`: not used and not expired at time `now`. -/
def FundTransferOTP.is_valid (otp : FundTransferOTP) (now : Int) : Bool :=
  if otp.is_used then false
  else if now > otp.expires_at then false
  else true

/-- `FundTransferOTP.create_otp`: delete every unused OTP of this member, then
create a fresh one expiring 10 minutes (600 seconds) from now.  The random
6-digit code is an oracle input `code`. -/
def FundTransferOTP.create_otp (s : State) (mid : Nat) (recipient_rfid : String)
    (amount : Money) (notes : String) (code : String) (now : Int) :
    FundTransferOTP × State :=
  let remaining := s.transfer_otps.filter (fun o => !(o.member_id == mid && o.is_used == false))
  let otp : FundTransferOTP :=
    { id := s.next_otp_id
      member_id := mid
      recipient_rfid := recipient_rfid
      amount := amount
      notes := notes
      otp_code := code
      created_at := now
      expires_at := now + 10 * 60
      is_used := false
      verified_at := none }
  (otp, { s with transfer_otps := remaining ++ [otp], next_otp_id := s.next_otp_id + 1 })

/-- `FundTransferOTP.mark_as_used` applied to the row with this id. -/
def markOtpUsed (otps : List FundTransferOTP) (oid : Nat) (now : Int) :
    List FundTransferOTP :=
  otps.map (fun o => if o.id == oid then { o with is_used := true, verified_at := some now } else o)

/-! ### Transfer protocol (`mobile_api/views.py`) -/

/-- Error outcomes of the transfer endpoints, one per distinct error response
of `request_transfer_otp` / `verify_transfer_otp`.  `otpAlreadyUsed` is the
error the spec's taxonomy (§7) reserves for re-verifying a consumed OTP; it is
kept in the type so that statements about it can be made, and the theorems
below show no code path of `verify_transfer_otp` ever produces it. -/
inductive TransferError
  | memberNotFound
  | invalidAmount
  | insufficientBalance
  | missingEmail
  | recipientNotFound
  | selfTransfer
  | otpCodeRequired
  | otpNotFound
  | otpExpired
  | otpAlreadyUsed
deriving Repr, DecidableEq

/-- Success payload of `verify_transfer_otp` (the balance snapshots it
returns). -/
structure TransferSuccess where
  amount : Money
  sender_id : Nat
  recipient_id : Nat
  sender_balance_before : Money
  sender_balance_after : Money
  recipient_balance_before : Money
  recipient_balance_after : Money
deriving Repr, DecidableEq

/-- `request_transfer_otp`: validate, then create the OTP (the email dispatch
is fire-and-forget and does not touch the database state). -/
def request_transfer_otp (s : State) (mid : Nat) (recipient_rfid : String)
    (amount : Money) (notes : String) (code : String) (now : Int) :
    Except TransferError Unit × State :=
  match findActiveMemberById s mid with
  | none => (.error .memberNotFound, s)
  | some member =>
    if amount ≤ 0 then (.error .invalidAmount, s)
    else if member.balance < amount then (.error .insufficientBalance, s)
    else if member.email = "" then (.error .missingEmail, s)
    else
      match findActiveMemberByRfid s recipient_rfid with
      | none => (.error .recipientNotFound, s)
      | some recipient =>
        if recipient.id == member.id then (.error .selfTransfer, s)
        else
          let (_, s') := FundTransferOTP.create_otp s member.id recipient_rfid amount notes code now
          (.ok (), s')

/-- Note string of the sender's deduction entry. -/
def senderEntryNotes (recipient : Member) (otpNotes : String) : String :=
  let rname := recipient.full_name
  let rrfid := recipient.rfid_card_number
  s!"Fund transfer to {rname} ({rrfid})" ++ (if otpNotes ≠ "" then " - " ++ otpNotes else "")

/-- Note string of the recipient's deposit entry. -/
def recipientEntryNotes (sender : Member) (otpNotes : String) : String :=
  let sname := sender.full_name
  let srfid := sender.rfid_card_number
  s!"Fund transfer from {sname} ({srfid})" ++ (if otpNotes ≠ "" then " - " ++ otpNotes else "")

/-- `verify_transfer_otp`: look up the unused OTP by (member, code), check
expiry, re-check the balance, resolve the recipient, then inside one
`transaction.atomic()` block mark the OTP used, move the funds and write the
two ledger entries. -/
def verify_transfer_otp (s : State) (mid : Nat) (otp_code : String) (now : Int) :
    Except TransferError TransferSuccess × State :=
  match findActiveMemberById s mid with
  | none => (.error .memberNotFound, s)
  | some member =>
    if otp_code = "" then (.error .otpCodeRequired, s)
    else
      match s.transfer_otps.find?
          (fun o => o.member_id == member.id && o.otp_code == otp_code && o.is_used == false) with
      | none => (.error .otpNotFound, s)
      | some otp =>
        if !(otp.is_valid now) then (.error .otpExpired, s)
        else
          let amount := otp.amount
          if member.balance < amount then (.error .insufficientBalance, s)
          else
            match findActiveMemberByRfid s otp.recipient_rfid with
            | none => (.error .recipientNotFound, s)
            | some recipient =>
              if recipient.id == member.id then (.error .selfTransfer, s)
              else
                let otps' := markOtpUsed s.transfer_otps otp.id now
                let sender_balance_before := member.balance
                let sender_balance_after := sender_balance_before - amount
                let members1 := setMemberBalance s.members member.id sender_balance_after
                let dEntry : BalanceTransaction :=
                  { member_id := member.id
                    transaction_type := .deduction
                    amount := amount
                    balance_before := sender_balance_before
                    balance_after := sender_balance_after
                    notes := senderEntryNotes recipient otp.notes }
                let recipient_balance_before := recipient.balance
                let recipient_balance_after := recipient_balance_before + amount
                let members2 := setMemberBalance members1 recipient.id recipient_balance_after
                let pEntry : BalanceTransaction :=
                  { member_id := recipient.id
                    transaction_type := .deposit
                    amount := amount
                    balance_before := recipient_balance_before
                    balance_after := recipient_balance_after
                    notes := recipientEntryNotes member otp.notes }
                let members3 :=
                  setMemberLastTransaction (setMemberLastTransaction members2 member.id now)
                    recipient.id now
                (.ok
                  { amount := amount
                    sender_id := member.id
                    recipient_id := recipient.id
                    sender_balance_before := sender_balance_before
                    sender_balance_after := sender_balance_after
                    recipient_balance_before := recipient_balance_before
                    recipient_balance_after := recipient_balance_after },
                 { s with
                    members := members3
                    transfer_otps := otps'
                    balance_transactions := s.balance_transactions ++ [dEntry, pEntry] })

/-! ### Balance refill (`admin_panel/views.py`, `api_refill_balance`) -/

/-- Error outcomes of `api_refill_balance`, one per distinct error response. -/
inductive RefillError
  | permissionDenied
  | missingMemberId
  | missingAmount
  | invalidAmount
  | memberNotFound
deriving Repr, DecidableEq

/-- `api_refill_balance`: permission gate, input validation, then
`member.add_balance(amount)` followed by a deposit ledger entry.  A JSON
amount of `0` is falsy in Python, so `if not amount:` rejects it as missing
before the `amount <= 0` check runs.  `performedByNote` is the
"Balance refill by <role>" prefix computed from the requesting user. -/
def api_refill_balance (s : State) (isAdmin isStaffRole : Bool)
    (member_id : Option Nat) (amount : Option Money) (notes : String)
    (performedByNote : String) : Except RefillError Money × State :=
  if !(isAdmin || isStaffRole) then (.error .permissionDenied, s)
  else
    match member_id with
    | none => (.error .missingMemberId, s)
    | some mid =>
      match amount with
      | none => (.error .missingAmount, s)
      | some amt =>
        if amt == 0 then (.error .missingAmount, s)
        else if amt ≤ 0 then (.error .invalidAmount, s)
        else
          match findActiveMemberById s mid with
          | none => (.error .memberNotFound, s)
          | some member =>
            let balance_before := member.balance
            let member' := member.add_balance amt
            let balance_after := member'.balance
            let members' := setMemberBalance s.members member.id balance_after
            let entry : BalanceTransaction :=
              { member_id := member.id
                transaction_type := .deposit
                amount := amt
                balance_before := balance_before
                balance_after := balance_after
                notes := performedByNote ++ (if notes ≠ "" then ". " ++ notes else "") }
            (.ok balance_after,
             { s with members := members', balance_transactions := s.balance_transactions ++ [entry] })

/-! ### Refund (`admin_panel/views.py`, `api_process_refund`) -/

/-- Error outcomes of `api_process_refund`, one per distinct error response.
`notRefundable` is the response "Transaction not found or not eligible for
refund", produced when no transaction with the given id *and*
`status='completed'` exists. -/
inductive RefundError
  | missingTransactionId
  | notRefundable
  | permissionDenied
deriving Repr, DecidableEq

/-- `Transaction.objects.get(id=..., status='completed')`. -/
def findCompletedTransaction (s : State) (tid : Nat) : Option SaleTransaction :=
  s.sale_transactions.find? (fun t => t.id == tid && t.status == "completed")

/-- `item.product.stock_quantity += item.quantity; item.product.save()` for
every line item that still references a product. -/
def restoreStock (ps : List Product) (items : List TransactionItem) : List Product :=
  items.foldl
    (fun acc it =>
      match it.product_id with
      | none => acc
      | some pid =>
        acc.map (fun p => if p.id == pid then { p with stock_quantity := p.stock_quantity + it.quantity } else p))
    ps

/-- Note string of the refund deposit entry. -/
def refundEntryNotes (txn : SaleTransaction) (reason : String) : String :=
  let tnum := txn.transaction_number
  let pm := txn.payment_method
  s!"Refund for transaction {tnum} (Original: {pm})" ++
    (if reason ≠ "" then ". " ++ reason else "")

/-- `transaction.status = 'cancelled'; transaction.notes = ...; transaction.save()`. -/
def setTransactionCancelled (ts : List SaleTransaction) (tid : Nat) (reason : String) :
    List SaleTransaction :=
  ts.map (fun t =>
    if t.id == tid then
      { t with status := "cancelled", notes := if reason ≠ "" then "Refunded. " ++ reason else "Refunded" }
    else t)

/-- The balance-credit phase of `api_process_refund`: if the transaction has an
owning member, `member.add_balance(transaction.total_amount)` and the deposit
ledger entry.  (If the transaction has no owning member, no balance mutation
occurs.) -/
def refundCredit (s : State) (txn : SaleTransaction) (reason : String) : State :=
  match txn.member_id with
  | none => s
  | some mid =>
    match findMemberById s mid with
    | none => s
    | some member =>
      let balance_before := member.balance
      let member' := member.add_balance txn.total_amount
      let balance_after := member'.balance
      let entry : BalanceTransaction :=
        { member_id := member.id
          transaction_type := .deposit
          amount := txn.total_amount
          balance_before := balance_before
          balance_after := balance_after
          notes := refundEntryNotes txn reason }
      { s with
          members := setMemberBalance s.members member.id balance_after
          balance_transactions := s.balance_transactions ++ [entry] }

/-- The access-control rejection of `api_process_refund`: a caller without
cashier/admin access may only refund a transaction owned by their own member
account. -/
def refundAccessDenied (fullAccess : Bool) (userMember : Option Nat)
    (txn : SaleTransaction) : Bool :=
  !fullAccess &&
    (match userMember with
     | none => true
     | some um => txn.member_id != some um)

/-- `api_process_refund`: find the completed transaction, apply the access
control, credit the member's balance with a deposit ledger entry, restore the
product stock, and mark the transaction cancelled.  `fullAccess` is
`is_cashier_or_admin(request.user)`; `userMember` is the active member row
resolved for the requesting user, if any. -/
def api_process_refund (s : State) (fullAccess : Bool) (userMember : Option Nat)
    (transaction_id : Option Nat) (reason : String) : Except RefundError Money × State :=
  match transaction_id with
  | none => (.error .missingTransactionId, s)
  | some tid =>
    match findCompletedTransaction s tid with
    | none => (.error .notRefundable, s)
    | some txn =>
      if refundAccessDenied fullAccess userMember txn then
        (.error .permissionDenied, s)
      else
        let s1 := refundCredit s txn reason
        let s2 := { s1 with products := restoreStock s1.products txn.items }
        let s3 := { s2 with sale_transactions := setTransactionCancelled s2.sale_transactions txn.id reason }
        (.ok txn.total_amount, s3)

/-- The state `api_process_refund` leaves behind when an exception aborts the
request after the balance credit but before the stock restore / status update
completes.  The view has no `transaction.atomic()` block, so the balance write
and the deposit ledger entry are already committed (each ORM `save()` commits
in autocommit mode), while `transaction.status` is still `'completed'`. -/
def api_process_refund_crashAfterCredit (s : State) (fullAccess : Bool)
    (userMember : Option Nat) (transaction_id : Option Nat) (reason : String) : State :=
  match transaction_id with
  | none => s
  | some tid =>
    match findCompletedTransaction s tid with
    | none => s
    | some txn =>
      if refundAccessDenied fullAccess userMember txn then s
      else refundCredit s txn reason

/-! ### Admin transaction update (`admin_panel/views.py`, `api_update_transaction`) -/

/-- JSON payload of `api_update_transaction`: every field is optional
(`if 'status' in data:` etc.). -/
structure UpdateTransactionPayload where
  transaction_id : Option Nat
  status : Option String
  payment_method : Option String
  amount_paid : Option Money
  amount_from_balance : Option Money
  notes : Option String
deriving Repr, DecidableEq

/-- Error outcomes of `api_update_transaction`. -/
inductive UpdateTransactionError
  | permissionDenied
  | missingTransactionId
  | transactionNotFound
deriving Repr, DecidableEq

/-- Field updates of `api_update_transaction` applied to one transaction row:
a status outside `STATUS_CHOICES` or a payment method outside
`PAYMENT_METHODS` is silently ignored, negative amounts are silently
ignored. -/
def applyTransactionUpdate (t : SaleTransaction) (p : UpdateTransactionPayload) :
    SaleTransaction :=
  let t := match p.status with
    | some v => if v ∈ STATUS_CHOICES then { t with status := v } else t
    | none => t
  let t := match p.payment_method with
    | some v => if v ∈ PAYMENT_METHODS then { t with payment_method := v } else t
    | none => t
  let t := match p.amount_paid with
    | some v => if v ≥ 0 then { t with amount_paid := v } else t
    | none => t
  let t := match p.amount_from_balance with
    | some v => if v ≥ 0 then { t with amount_from_balance := v } else t
    | none => t
  match p.notes with
  | some v => { t with notes := v }
  | none => t

/-- `api_update_transaction`: admin-only; finds the transaction by id and
writes the payload's fields with no regard to the transaction's current
status. -/
def api_update_transaction (s : State) (isAdmin : Bool) (p : UpdateTransactionPayload) :
    Except UpdateTransactionError Unit × State :=
  if !isAdmin then (.error .permissionDenied, s)
  else
    match p.transaction_id with
    | none => (.error .missingTransactionId, s)
    | some tid =>
      match s.sale_transactions.find? (fun t => t.id == tid) with
      | none => (.error .transactionNotFound, s)
      | some _ =>
        (.ok (),
         { s with
            sale_transactions :=
              s.sale_transactions.map (fun t => if t.id == tid then applyTransactionUpdate t p else t) })

/-! ### Operation sequences and system invariants -/

/-- One call of a balance-affecting public operation, with its request
inputs. -/
inductive Op
  | refill (isAdmin isStaffRole : Bool) (member_id : Option Nat) (amount : Option Money)
      (notes performedByNote : String)
  | transferRequest (mid : Nat) (recipient_rfid : String) (amount : Money)
      (notes code : String) (now : Int)
  | transferVerify (mid : Nat) (otp_code : String) (now : Int)
  | refund (fullAccess : Bool) (userMember : Option Nat) (transaction_id : Option Nat)
      (reason : String)
deriving Repr, DecidableEq

/-- The state reached by one operation (its response discarded). -/
def applyOp (s : State) : Op → State
  | .refill a b mid amt n p => (api_refill_balance s a b mid amt n p).2
  | .transferRequest mid r a n c now => (request_transfer_otp s mid r a n c now).2
  | .transferVerify mid c now => (verify_transfer_otp s mid c now).2
  | .refund f u t r => (api_process_refund s f u t r).2

/-- The state reached by a sequence of operations. -/
def applyOps (s : State) (ops : List Op) : State :=
  ops.foldl applyOp s

/-- The signed contribution of a ledger entry to its member's balance:
`+amount` for a deposit, `-amount` for a deduction. -/
def BalanceTransaction.signedAmount (e : BalanceTransaction) : Money :=
  match e.transaction_type with
  | .deposit => e.amount
  | .deduction => -e.amount

/-- Sum of a member's deposit entry amounts minus its deduction entry
amounts. -/
def ledgerSum (entries : List BalanceTransaction) (mid : Nat) : Money :=
  ((entries.filter (fun e => e.member_id == mid)).map BalanceTransaction.signedAmount).sum

/-- Total balance held across all member accounts. -/
def sumBalances (s : State) : Money :=
  (s.members.map Member.balance).sum

/-- Member rows have pairwise distinct ids (primary-key uniqueness) and every
member's balance equals the signed sum of its ledger entries. -/
def ledgerInvariant (s : State) : Prop :=
  (s.members.map Member.id).Nodup ∧
    ∀ m ∈ s.members, m.balance = ledgerSum s.balance_transactions m.id

/-- Any two unused OTPs of the same member in the list are the same row. -/
def otpsAtMostOneUnused (otps : List FundTransferOTP) : Prop :=
  ∀ o1 ∈ otps, ∀ o2 ∈ otps,
    o1.is_used = false → o2.is_used = false → o1.member_id = o2.member_id → o1 = o2

/-- At most one unused transfer OTP exists per member. -/
def atMostOneUnusedPerMember (s : State) : Prop :=
  otpsAtMostOneUnused s.transfer_otps

/-! ### Derived state constructors used by the theorems below -/

/-- The deduction ledger entry written for the sender by a successful
transfer. -/
def transferDeductionEntry (member recipient : Member) (otp : FundTransferOTP) :
    BalanceTransaction :=
  { member_id := member.id
    transaction_type := .deduction
    amount := otp.amount
    balance_before := member.balance
    balance_after := member.balance - otp.amount
    notes := senderEntryNotes recipient otp.notes }

/-- The deposit ledger entry written for the recipient by a successful
transfer. -/
def transferDepositEntry (member recipient : Member) (otp : FundTransferOTP) :
    BalanceTransaction :=
  { member_id := recipient.id
    transaction_type := .deposit
    amount := otp.amount
    balance_before := recipient.balance
    balance_after := recipient.balance + otp.amount
    notes := recipientEntryNotes member otp.notes }

/-- The member table after a successful transfer: sender balance written, then
recipient balance, then both last-activity stamps. -/
def transferMembers (ms : List Member) (member recipient : Member) (otp : FundTransferOTP)
    (now : Int) : List Member :=
  setMemberLastTransaction
    (setMemberLastTransaction
      (setMemberBalance (setMemberBalance ms member.id (member.balance - otp.amount))
        recipient.id (recipient.balance + otp.amount))
      member.id now)
    recipient.id now

/-- The full state after a successful transfer. -/
def transferSuccessState (s : State) (member recipient : Member) (otp : FundTransferOTP)
    (now : Int) : State :=
  { s with
      members := transferMembers s.members member recipient otp now
      transfer_otps := markOtpUsed s.transfer_otps otp.id now
      balance_transactions := s.balance_transactions ++
        [transferDeductionEntry member recipient otp, transferDepositEntry member recipient otp] }

/-- The predicate of the unused-OTP lookup in `verify_transfer_otp`. -/
def otpLookup (memberId : Nat) (code : String) (o : FundTransferOTP) : Bool :=
  o.member_id == memberId && o.otp_code == code && o.is_used == false

/-- The deposit ledger entry written by a successful refill. -/
def refillDepositEntry (member : Member) (amt : Money) (notes performedByNote : String) :
    BalanceTransaction :=
  { member_id := member.id
    transaction_type := .deposit
    amount := amt
    balance_before := member.balance
    balance_after := member.balance + amt
    notes := performedByNote ++ (if notes ≠ "" then ". " ++ notes else "") }

/-- The full state after a successful refill. -/
def refillSuccessState (s : State) (member : Member) (amt : Money)
    (notes performedByNote : String) : State :=
  { s with
      members := setMemberBalance s.members member.id (member.balance + amt)
      balance_transactions := s.balance_transactions ++ [refillDepositEntry member amt notes performedByNote] }

/-- The deposit ledger entry written by a refund to the owning member. -/
def refundDepositEntry (member : Member) (txn : SaleTransaction) (reason : String) :
    BalanceTransaction :=
  { member_id := member.id
    transaction_type := .deposit
    amount := txn.total_amount
    balance_before := member.balance
    balance_after := member.balance + txn.total_amount
    notes := refundEntryNotes txn reason }

/-- The full state after a successful refund. -/
def refundSuccessState (s : State) (txn : SaleTransaction) (reason : String) : State :=
  let s1 := refundCredit s txn reason
  let s2 := { s1 with products := restoreStock s1.products txn.items }
  { s2 with sale_transactions := setTransactionCancelled s2.sale_transactions txn.id reason }

/-! ### Concrete fixtures (used to exercise the operations on closed inputs) -/

/-- Fixture: active member Alice, card "CARD-A", balance 500.00. -/
def aliceW : Member :=
  { id := 1, rfid_card_number := "CARD-A", email := "alice@mail.test", full_name := "Alice",
    is_active := true, balance := 50000, last_transaction := none }

/-- Fixture: active member Bob, card "CARD-B", balance 50.00. -/
def bobW : Member :=
  { id := 2, rfid_card_number := "CARD-B", email := "bob@mail.test", full_name := "Bob",
    is_active := true, balance := 5000, last_transaction := none }

/-- Fixture: unused transfer OTP for Alice to Bob over 200.00, code "123456",
created at time 1000 and expiring at 1600. -/
def otpW : FundTransferOTP :=
  { id := 10, member_id := 1, recipient_rfid := "CARD-B", amount := 20000, notes := "",
    otp_code := "123456", created_at := 1000, expires_at := 1600, is_used := false,
    verified_at := none }

/-- Fixture: state with Alice's pending transfer intent. -/
def pendingTransferState : State :=
  { members := [aliceW, bobW], balance_transactions := [], transfer_otps := [otpW],
    sale_transactions := [], products := [], next_otp_id := 11 }

/-- Fixture: Alice with her balance dropped to 100.00, below the intent's
amount. -/
def alicePoor : Member := { aliceW with balance := 10000 }

/-- Fixture: like `pendingTransferState` but the sender is too poor for the
pending intent. -/
def poorSenderState : State :=
  { pendingTransferState with members := [alicePoor, bobW] }

/-- Fixture: completed sale of 150.00 owned by Alice, one line item of
quantity 2 on product 5. -/
def completedSaleW : SaleTransaction :=
  { id := 7, transaction_number := "TXN-7", member_id := some 1, total_amount := 15000,
    payment_method := "cash", amount_paid := 15000, amount_from_balance := 0,
    status := "completed", notes := "", items := [{ product_id := some 5, quantity := 2 }] }

/-- Fixture: the same sale already cancelled. -/
def cancelledSaleW : SaleTransaction := { completedSaleW with status := "cancelled" }

/-- Fixture: product 5 with one unit in stock. -/
def productW : Product := { id := 5, stock_quantity := 1 }

/-- Fixture: state holding the completed sale. -/
def refundableState : State :=
  { members := [aliceW, bobW], balance_transactions := [], transfer_otps := [],
    sale_transactions := [completedSaleW], products := [productW], next_otp_id := 11 }

/-- Fixture: state holding the already-cancelled sale. -/
def cancelledSaleState : State :=
  { refundableState with sale_transactions := [cancelledSaleW] }

/-- Fixture: two members with zero balances and an empty ledger. -/
def zeroState : State :=
  { members := [{ aliceW with balance := 0 }, { bobW with balance := 0 }],
    balance_transactions := [], transfer_otps := [], sale_transactions := [],
    products := [], next_otp_id := 0 }

/-! ### Helper lemmas: row updates, ledger sums, uniqueness -/

theorem member_id_unique {ms : List Member} (h : (ms.map Member.id).Nodup)
    {a b : Member} (ha : a ∈ ms) (hb : b ∈ ms) (hid : a.id = b.id) : a = b :=
  List.inj_on_of_nodup_map h ha hb hid

theorem mem_updateMemberRow {ms : List Member} {mid : Nat} {f : Member → Member} {m' : Member} :
    m' ∈ updateMemberRow ms mid f ↔ ∃ m ∈ ms, m' = if m.id == mid then f m else m := by
  unfold updateMemberRow
  simp only [List.mem_map]
  constructor
  · rintro ⟨m, hm, rfl⟩; exact ⟨m, hm, rfl⟩
  · rintro ⟨m, hm, rfl⟩; exact ⟨m, hm, rfl⟩

theorem updateMemberRow_map_id (ms : List Member) (mid : Nat) (f : Member → Member)
    (hf : ∀ m, (f m).id = m.id) :
    (updateMemberRow ms mid f).map Member.id = ms.map Member.id := by
  unfold updateMemberRow
  rw [List.map_map]
  apply List.map_congr_left
  intro m _
  show (if (m.id == mid) = true then f m else m).id = m.id
  by_cases h : (m.id == mid) = true
  · rw [if_pos h, hf]
  · rw [if_neg h]

theorem find?_updateMemberRow (ms : List Member) (mid : Nat) (f : Member → Member)
    (p : Member → Bool) (hp : ∀ m, p (f m) = p m) :
    (updateMemberRow ms mid f).find? p
      = (ms.find? p).map (fun m => if m.id == mid then f m else m) := by
  induction ms with
  | nil => rfl
  | cons a t ih =>
    unfold updateMemberRow
    rw [List.map_cons]
    by_cases hpa : p a = true
    · have hpa2 : p (if (a.id == mid) = true then f a else a) = true := by
        by_cases ha : (a.id == mid) = true
        · rw [if_pos ha, hp]; exact hpa
        · rw [if_neg ha]; exact hpa
      rw [List.find?_cons_of_pos _ hpa2, List.find?_cons_of_pos _ hpa]
      rfl
    · have hpa2 : ¬ p (if (a.id == mid) = true then f a else a) = true := by
        by_cases ha : (a.id == mid) = true
        · rw [if_pos ha, hp]; exact hpa
        · rw [if_neg ha]; exact hpa
      rw [List.find?_cons_of_neg _ hpa2, List.find?_cons_of_neg _ hpa]
      exact ih

theorem updateMemberRow_eq_self (ms : List Member) (mid : Nat) (f : Member → Member)
    (h : ∀ m ∈ ms, m.id ≠ mid) : updateMemberRow ms mid f = ms := by
  induction ms with
  | nil => rfl
  | cons a t ih =>
    unfold updateMemberRow
    rw [List.map_cons]
    rw [if_neg (by simpa using h a (List.mem_cons_self a t))]
    have ht := ih (fun m hm => h m (List.mem_cons_of_mem a hm))
    unfold updateMemberRow at ht
    rw [ht]

theorem map_balance_updateMemberRow (ms : List Member) (mid : Nat) (f : Member → Member)
    (hf : ∀ m, (f m).balance = m.balance) :
    (updateMemberRow ms mid f).map Member.balance = ms.map Member.balance := by
  unfold updateMemberRow
  rw [List.map_map]
  apply List.map_congr_left
  intro m _
  show (if (m.id == mid) = true then f m else m).balance = m.balance
  by_cases h : (m.id == mid) = true
  · rw [if_pos h, hf]
  · rw [if_neg h]

theorem sum_balance_updateMemberRow (ms : List Member) (mid : Nat) (f : Member → Member)
    (hnd : (ms.map Member.id).Nodup) (m : Member) (hm : m ∈ ms) (hid : m.id = mid) :
    ((updateMemberRow ms mid f).map Member.balance).sum
      = (ms.map Member.balance).sum - m.balance + (f m).balance := by
  induction ms with
  | nil => cases hm
  | cons a t ih =>
    rw [List.map_cons, List.nodup_cons] at hnd
    rcases List.mem_cons.mp hm with rfl | hmt
    · have ht : ∀ x ∈ t, x.id ≠ mid := by
        intro x hx hxid
        exact hnd.1 (by rw [hid, ← hxid]; exact List.mem_map_of_mem Member.id hx)
      unfold updateMemberRow
      rw [List.map_cons, if_pos (by simpa using hid)]
      have hts := updateMemberRow_eq_self t mid f ht
      unfold updateMemberRow at hts
      rw [hts, List.map_cons, List.sum_cons, List.map_cons, List.sum_cons]
      ring
    · have hna : ¬ (a.id == mid) = true := by
        simp only [beq_iff_eq]
        intro haid
        exact hnd.1 (by rw [haid, ← hid]; exact List.mem_map_of_mem Member.id hmt)
      unfold updateMemberRow
      rw [List.map_cons, if_neg hna]
      have iht := ih hnd.2 hmt
      unfold updateMemberRow at iht
      rw [List.map_cons, List.sum_cons, iht, List.map_cons, List.sum_cons]
      ring

theorem ledgerSum_append (es es' : List BalanceTransaction) (mid : Nat) :
    ledgerSum (es ++ es') mid = ledgerSum es mid + ledgerSum es' mid := by
  unfold ledgerSum
  rw [List.filter_append, List.map_append, List.sum_append]

theorem ledgerSum_singleton (e : BalanceTransaction) (mid : Nat) :
    ledgerSum [e] mid = if (e.member_id == mid) = true then e.signedAmount else 0 := by
  unfold ledgerSum
  by_cases h : (e.member_id == mid) = true
  · rw [if_pos h]
    simp [List.filter_cons, h]
  · rw [if_neg h]
    simp [List.filter_cons, h]

/-! ### Shape lemmas for `verify_transfer_otp` -/

theorem verify_transfer_otp_ok (s : State) (mid : Nat) (code : String) (now : Int)
    (member : Member) (otp : FundTransferOTP) (recipient : Member)
    (hcode : ¬ code = "")
    (hmem : findActiveMemberById s mid = some member)
    (hotp : s.transfer_otps.find? (otpLookup member.id code) = some otp)
    (hvalid : otp.is_valid now = true)
    (hbal : ¬ member.balance < otp.amount)
    (hrec : findActiveMemberByRfid s otp.recipient_rfid = some recipient)
    (hne : ¬ recipient.id = member.id) :
    verify_transfer_otp s mid code now =
      (.ok { amount := otp.amount
             sender_id := member.id
             recipient_id := recipient.id
             sender_balance_before := member.balance
             sender_balance_after := member.balance - otp.amount
             recipient_balance_before := recipient.balance
             recipient_balance_after := recipient.balance + otp.amount },
       transferSuccessState s member recipient otp now) := by
  unfold verify_transfer_otp
  rw [hmem]
  show (if code = "" then _ else _) = _
  rw [if_neg hcode]
  unfold otpLookup at hotp
  rw [hotp]
  show (if (!otp.is_valid now) = true then _ else _) = _
  rw [hvalid]
  rw [if_neg (by simp)]
  rw [if_neg hbal, hrec]
  show (if (recipient.id == member.id) = true then _ else _) = _
  rw [if_neg (by simpa using hne)]
  rfl

theorem verify_transfer_otp_insufficient (s : State) (mid : Nat) (code : String) (now : Int)
    (member : Member) (otp : FundTransferOTP)
    (hcode : ¬ code = "")
    (hmem : findActiveMemberById s mid = some member)
    (hotp : s.transfer_otps.find? (otpLookup member.id code) = some otp)
    (hvalid : otp.is_valid now = true)
    (hbal : member.balance < otp.amount) :
    verify_transfer_otp s mid code now = (.error .insufficientBalance, s) := by
  unfold verify_transfer_otp
  rw [hmem]
  show (if code = "" then _ else _) = _
  rw [if_neg hcode]
  unfold otpLookup at hotp
  rw [hotp]
  show (if (!otp.is_valid now) = true then _ else _) = _
  rw [hvalid]
  rw [if_neg (by simp)]
  rw [if_pos hbal]

theorem verify_transfer_otp_expired (s : State) (mid : Nat) (code : String) (now : Int)
    (member : Member) (otp : FundTransferOTP)
    (hcode : ¬ code = "")
    (hmem : findActiveMemberById s mid = some member)
    (hotp : s.transfer_otps.find? (otpLookup member.id code) = some otp)
    (hvalid : otp.is_valid now = false) :
    verify_transfer_otp s mid code now = (.error .otpExpired, s) := by
  unfold verify_transfer_otp
  rw [hmem]
  show (if code = "" then _ else _) = _
  rw [if_neg hcode]
  unfold otpLookup at hotp
  rw [hotp]
  show (if (!otp.is_valid now) = true then _ else _) = _
  rw [hvalid]
  rw [if_pos (by simp)]

theorem verify_transfer_otp_notFound (s : State) (mid : Nat) (code : String) (now : Int)
    (member : Member)
    (hcode : ¬ code = "")
    (hmem : findActiveMemberById s mid = some member)
    (hotp : s.transfer_otps.find? (otpLookup member.id code) = none) :
    verify_transfer_otp s mid code now = (.error .otpNotFound, s) := by
  unfold verify_transfer_otp
  rw [hmem]
  show (if code = "" then _ else _) = _
  rw [if_neg hcode]
  unfold otpLookup at hotp
  rw [hotp]

theorem verify_transfer_otp_noMember (s : State) (mid : Nat) (code : String) (now : Int)
    (hmem : findActiveMemberById s mid = none) :
    verify_transfer_otp s mid code now = (.error .memberNotFound, s) := by
  unfold verify_transfer_otp
  rw [hmem]

theorem verify_transfer_otp_emptyCode (s : State) (mid : Nat) (now : Int)
    (member : Member) (hmem : findActiveMemberById s mid = some member) :
    verify_transfer_otp s mid "" now = (.error .otpCodeRequired, s) := by
  unfold verify_transfer_otp
  rw [hmem]
  show (if ("" : String) = "" then _ else _) = _
  rw [if_pos rfl]

theorem verify_transfer_otp_noRecipient (s : State) (mid : Nat) (code : String) (now : Int)
    (member : Member) (otp : FundTransferOTP)
    (hcode : ¬ code = "")
    (hmem : findActiveMemberById s mid = some member)
    (hotp : s.transfer_otps.find? (otpLookup member.id code) = some otp)
    (hvalid : otp.is_valid now = true)
    (hbal : ¬ member.balance < otp.amount)
    (hrec : findActiveMemberByRfid s otp.recipient_rfid = none) :
    verify_transfer_otp s mid code now = (.error .recipientNotFound, s) := by
  unfold verify_transfer_otp
  rw [hmem]
  show (if code = "" then _ else _) = _
  rw [if_neg hcode]
  unfold otpLookup at hotp
  rw [hotp]
  show (if (!otp.is_valid now) = true then _ else _) = _
  rw [hvalid]
  rw [if_neg (by simp)]
  rw [if_neg hbal, hrec]

theorem verify_transfer_otp_self (s : State) (mid : Nat) (code : String) (now : Int)
    (member : Member) (otp : FundTransferOTP) (recipient : Member)
    (hcode : ¬ code = "")
    (hmem : findActiveMemberById s mid = some member)
    (hotp : s.transfer_otps.find? (otpLookup member.id code) = some otp)
    (hvalid : otp.is_valid now = true)
    (hbal : ¬ member.balance < otp.amount)
    (hrec : findActiveMemberByRfid s otp.recipient_rfid = some recipient)
    (hself : recipient.id = member.id) :
    verify_transfer_otp s mid code now = (.error .selfTransfer, s) := by
  unfold verify_transfer_otp
  rw [hmem]
  show (if code = "" then _ else _) = _
  rw [if_neg hcode]
  unfold otpLookup at hotp
  rw [hotp]
  show (if (!otp.is_valid now) = true then _ else _) = _
  rw [hvalid]
  rw [if_neg (by simp)]
  rw [if_neg hbal, hrec]
  show (if (recipient.id == member.id) = true then _ else _) = _
  rw [if_pos (by simpa using hself)]

/-- Every run of `verify_transfer_otp` either leaves the state untouched
(every error branch) or took the success branch, with all of its guards
established. -/
theorem verify_transfer_otp_state_cases (s : State) (mid : Nat) (code : String) (now : Int) :
    (verify_transfer_otp s mid code now).2 = s ∨
      ∃ member otp recipient,
        ¬ code = "" ∧
        findActiveMemberById s mid = some member ∧
        s.transfer_otps.find? (otpLookup member.id code) = some otp ∧
        otp.is_valid now = true ∧
        ¬ member.balance < otp.amount ∧
        findActiveMemberByRfid s otp.recipient_rfid = some recipient ∧
        ¬ recipient.id = member.id ∧
        (verify_transfer_otp s mid code now).2 = transferSuccessState s member recipient otp now := by
  cases hmem : findActiveMemberById s mid with
  | none => left; rw [verify_transfer_otp_noMember s mid code now hmem]
  | some member =>
    by_cases hcode : code = ""
    · left; rw [hcode, verify_transfer_otp_emptyCode s mid now member hmem]
    · cases hotp : s.transfer_otps.find? (otpLookup member.id code) with
      | none => left; rw [verify_transfer_otp_notFound s mid code now member hcode hmem hotp]
      | some otp =>
        cases hvalid : otp.is_valid now with
        | false => left; rw [verify_transfer_otp_expired s mid code now member otp hcode hmem hotp hvalid]
        | true =>
          by_cases hbal : member.balance < otp.amount
          · left; rw [verify_transfer_otp_insufficient s mid code now member otp hcode hmem hotp hvalid hbal]
          · cases hrec : findActiveMemberByRfid s otp.recipient_rfid with
            | none => left; rw [verify_transfer_otp_noRecipient s mid code now member otp hcode hmem hotp hvalid hbal hrec]
            | some recipient =>
              by_cases hself : recipient.id = member.id
              · left; rw [verify_transfer_otp_self s mid code now member otp recipient hcode hmem hotp hvalid hbal hrec hself]
              · right
                refine ⟨member, otp, recipient, hcode, rfl, hotp, hvalid, hbal, hrec, hself, ?_⟩
                rw [verify_transfer_otp_ok s mid code now member otp recipient hcode hmem hotp hvalid hbal hrec hself]

/-! ### Shape lemmas for `request_transfer_otp` -/

theorem request_transfer_otp_ok (s : State) (mid : Nat) (rfid : String) (amount : Money)
    (notes code : String) (now : Int) (member recipient : Member)
    (hmem : findActiveMemberById s mid = some member)
    (hamt : ¬ amount ≤ 0)
    (hbal : ¬ member.balance < amount)
    (hemail : ¬ member.email = "")
    (hrec : findActiveMemberByRfid s rfid = some recipient)
    (hne : ¬ recipient.id = member.id) :
    request_transfer_otp s mid rfid amount notes code now =
      (.ok (), (FundTransferOTP.create_otp s member.id rfid amount notes code now).2) := by
  unfold request_transfer_otp
  rw [hmem]
  show (if amount ≤ 0 then _ else _) = _
  rw [if_neg hamt, if_neg hbal, if_neg hemail, hrec]
  show (if (recipient.id == member.id) = true then _ else _) = _
  rw [if_neg (by simpa using hne)]

/-- Every run of `request_transfer_otp` either leaves the state untouched or
reaches `FundTransferOTP.create_otp` with all request guards established. -/
theorem request_transfer_otp_state_cases (s : State) (mid : Nat) (rfid : String)
    (amount : Money) (notes code : String) (now : Int) :
    (request_transfer_otp s mid rfid amount notes code now).2 = s ∨
      ∃ member recipient,
        findActiveMemberById s mid = some member ∧
        ¬ amount ≤ 0 ∧
        ¬ member.balance < amount ∧
        ¬ member.email = "" ∧
        findActiveMemberByRfid s rfid = some recipient ∧
        ¬ recipient.id = member.id ∧
        (request_transfer_otp s mid rfid amount notes code now).2 =
          (FundTransferOTP.create_otp s member.id rfid amount notes code now).2 := by
  cases hmem : findActiveMemberById s mid with
  | none => left; unfold request_transfer_otp; rw [hmem]
  | some member =>
    by_cases hamt : amount ≤ 0
    · left; unfold request_transfer_otp; rw [hmem]
      show ((if amount ≤ 0 then _ else _ : Except TransferError Unit × State)).2 = s
      rw [if_pos hamt]
    · by_cases hbal : member.balance < amount
      · left; unfold request_transfer_otp; rw [hmem]
        show ((if amount ≤ 0 then _ else _ : Except TransferError Unit × State)).2 = s
        rw [if_neg hamt, if_pos hbal]
      · by_cases hemail : member.email = ""
        · left; unfold request_transfer_otp; rw [hmem]
          show ((if amount ≤ 0 then _ else _ : Except TransferError Unit × State)).2 = s
          rw [if_neg hamt, if_neg hbal, if_pos hemail]
        · cases hrec : findActiveMemberByRfid s rfid with
          | none =>
            left; unfold request_transfer_otp; rw [hmem]
            show ((if amount ≤ 0 then _ else _ : Except TransferError Unit × State)).2 = s
            rw [if_neg hamt, if_neg hbal, if_neg hemail, hrec]
          | some recipient =>
            by_cases hself : recipient.id = member.id
            · left; unfold request_transfer_otp; rw [hmem]
              show ((if amount ≤ 0 then _ else _ : Except TransferError Unit × State)).2 = s
              rw [if_neg hamt, if_neg hbal, if_neg hemail, hrec]
              show ((if (recipient.id == member.id) = true then _ else _ : Except TransferError Unit × State)).2 = s
              rw [if_pos (by simpa using hself)]
            · right
              refine ⟨member, recipient, rfl, hamt, hbal, hemail, rfl, hself, ?_⟩
              rw [request_transfer_otp_ok s mid rfid amount notes code now member recipient hmem hamt hbal hemail hrec hself]

/-! ### Locating members in the post-transfer member table -/

theorem find?_id_eq_of_mem {ms : List Member} (hnd : (ms.map Member.id).Nodup)
    {member : Member} (hm : member ∈ ms) :
    ms.find? (fun m => m.id == member.id) = some member := by
  induction ms with
  | nil => cases hm
  | cons a t ih =>
    rw [List.map_cons, List.nodup_cons] at hnd
    rcases List.mem_cons.mp hm with rfl | hmt
    · rw [List.find?_cons_of_pos _ (by simp)]
    · have hne : (a.id == member.id) = false := by
        simp only [beq_eq_false_iff_ne, ne_eq]
        intro h
        apply hnd.1
        rw [h]
        exact List.mem_map_of_mem Member.id hmt
      simp only [List.find?, hne]
      exact ih hnd.2 hmt

theorem find?_setBalance (ms : List Member) (mid : Nat) (b : Money) (mid2 : Nat) :
    (setMemberBalance ms mid b).find? (fun m => m.id == mid2)
      = (ms.find? (fun m => m.id == mid2)).map
          (fun m => if m.id == mid then { m with balance := b } else m) :=
  find?_updateMemberRow ms mid (fun m => { m with balance := b })
    (fun m => m.id == mid2) (fun _ => rfl)

theorem find?_setLast (ms : List Member) (mid : Nat) (now : Int) (mid2 : Nat) :
    (setMemberLastTransaction ms mid now).find? (fun m => m.id == mid2)
      = (ms.find? (fun m => m.id == mid2)).map
          (fun m => if m.id == mid then { m with last_transaction := some now } else m) :=
  find?_updateMemberRow ms mid (fun m => { m with last_transaction := some now })
    (fun m => m.id == mid2) (fun _ => rfl)

theorem findActive_setBalance (ms : List Member) (mid : Nat) (b : Money) (mid2 : Nat) :
    (setMemberBalance ms mid b).find? (fun m => m.id == mid2 && m.is_active)
      = (ms.find? (fun m => m.id == mid2 && m.is_active)).map
          (fun m => if m.id == mid then { m with balance := b } else m) :=
  find?_updateMemberRow ms mid (fun m => { m with balance := b })
    (fun m => m.id == mid2 && m.is_active) (fun _ => rfl)

theorem findActive_setLast (ms : List Member) (mid : Nat) (now : Int) (mid2 : Nat) :
    (setMemberLastTransaction ms mid now).find? (fun m => m.id == mid2 && m.is_active)
      = (ms.find? (fun m => m.id == mid2 && m.is_active)).map
          (fun m => if m.id == mid then { m with last_transaction := some now } else m) :=
  find?_updateMemberRow ms mid (fun m => { m with last_transaction := some now })
    (fun m => m.id == mid2 && m.is_active) (fun _ => rfl)

theorem map_id_setBalance (ms : List Member) (mid : Nat) (b : Money) :
    (setMemberBalance ms mid b).map Member.id = ms.map Member.id :=
  updateMemberRow_map_id ms mid (fun m => { m with balance := b }) (fun _ => rfl)

theorem map_balance_setLast (ms : List Member) (mid : Nat) (now : Int) :
    (setMemberLastTransaction ms mid now).map Member.balance = ms.map Member.balance :=
  map_balance_updateMemberRow ms mid (fun m => { m with last_transaction := some now }) (fun _ => rfl)

theorem sum_balance_setBalance (ms : List Member) (mid : Nat) (b : Money)
    (hnd : (ms.map Member.id).Nodup) (m : Member) (hm : m ∈ ms) (hid : m.id = mid) :
    ((setMemberBalance ms mid b).map Member.balance).sum
      = (ms.map Member.balance).sum - m.balance + b :=
  sum_balance_updateMemberRow ms mid (fun m => { m with balance := b }) hnd m hm hid

theorem mem_setBalance_of_ne (ms : List Member) (mid : Nat) (b : Money)
    (m : Member) (hm : m ∈ ms) (hne : ¬ m.id = mid) :
    m ∈ setMemberBalance ms mid b := by
  unfold setMemberBalance
  rw [mem_updateMemberRow]
  refine ⟨m, hm, ?_⟩
  rw [if_neg (by simpa using hne)]

theorem transferMembers_find_sender (ms : List Member) (member recipient : Member)
    (otp : FundTransferOTP) (now : Int)
    (hnd : (ms.map Member.id).Nodup) (hm : member ∈ ms)
    (hne : ¬ recipient.id = member.id) :
    (transferMembers ms member recipient otp now).find? (fun m => m.id == member.id)
      = some { member with balance := member.balance - otp.amount, last_transaction := some now } := by
  unfold transferMembers
  rw [find?_setLast, find?_setLast, find?_setBalance, find?_setBalance]
  rw [find?_id_eq_of_mem hnd hm]
  have hmr : member.id ≠ recipient.id := fun h => hne h.symm
  simp [hmr]

theorem transferMembers_find_recipient (ms : List Member) (member recipient : Member)
    (otp : FundTransferOTP) (now : Int)
    (hnd : (ms.map Member.id).Nodup) (hr : recipient ∈ ms)
    (hne : ¬ recipient.id = member.id) :
    (transferMembers ms member recipient otp now).find? (fun m => m.id == recipient.id)
      = some { recipient with balance := recipient.balance + otp.amount, last_transaction := some now } := by
  unfold transferMembers
  rw [find?_setLast, find?_setLast, find?_setBalance, find?_setBalance]
  rw [find?_id_eq_of_mem hnd hr]
  simp [hne]

theorem transferMembers_sum (ms : List Member) (member recipient : Member)
    (otp : FundTransferOTP) (now : Int)
    (hnd : (ms.map Member.id).Nodup) (hm : member ∈ ms) (hr : recipient ∈ ms)
    (hne : ¬ recipient.id = member.id) :
    ((transferMembers ms member recipient otp now).map Member.balance).sum
      = (ms.map Member.balance).sum := by
  unfold transferMembers
  rw [map_balance_setLast, map_balance_setLast]
  have hnd1 : ((setMemberBalance ms member.id (member.balance - otp.amount)).map Member.id).Nodup := by
    rw [map_id_setBalance]
    exact hnd
  have hr1 : recipient ∈ setMemberBalance ms member.id (member.balance - otp.amount) :=
    mem_setBalance_of_ne ms member.id _ recipient hr hne
  rw [sum_balance_setBalance _ _ _ hnd1 recipient hr1 rfl,
    sum_balance_setBalance _ _ _ hnd member hm rfl]
  ring

/-! ### Shape lemmas for `api_refill_balance` -/

theorem api_refill_balance_ok (s : State) (isAdmin isStaffRole : Bool) (mid : Nat)
    (amt : Money) (notes performedByNote : String) (member : Member)
    (hperm : (isAdmin || isStaffRole) = true)
    (hz : ¬ (amt == 0) = true)
    (hle : ¬ amt ≤ 0)
    (hmem : findActiveMemberById s mid = some member) :
    api_refill_balance s isAdmin isStaffRole (some mid) (some amt) notes performedByNote =
      (.ok (member.balance + amt), refillSuccessState s member amt notes performedByNote) := by
  unfold api_refill_balance
  rw [hperm]
  show (if (!true) = true then _ else _) = _
  rw [if_neg (by simp)]
  show (if (amt == 0) = true then _ else _) = _
  rw [if_neg hz, if_neg hle, hmem]
  rfl

/-- Every run of `api_refill_balance` either leaves the state untouched or took
the success branch with all guards established. -/
theorem api_refill_balance_state_cases (s : State) (isAdmin isStaffRole : Bool)
    (member_id : Option Nat) (amount : Option Money) (notes performedByNote : String) :
    (api_refill_balance s isAdmin isStaffRole member_id amount notes performedByNote).2 = s ∨
      ∃ mid amt member,
        member_id = some mid ∧
        amount = some amt ∧
        ¬ amt ≤ 0 ∧
        findActiveMemberById s mid = some member ∧
        (api_refill_balance s isAdmin isStaffRole member_id amount notes performedByNote).2 =
          refillSuccessState s member amt notes performedByNote := by
  by_cases hperm : (isAdmin || isStaffRole) = true
  · cases member_id with
    | none =>
      left; unfold api_refill_balance
      rw [hperm]
      show ((if (!true) = true then _ else _ : Except RefillError Money × State)).2 = s
      rw [if_neg (by simp)]
    | some mid =>
      cases amount with
      | none =>
        left; unfold api_refill_balance
        rw [hperm]
        show ((if (!true) = true then _ else _ : Except RefillError Money × State)).2 = s
        rw [if_neg (by simp)]
      | some amt =>
        by_cases hz : (amt == 0) = true
        · left; unfold api_refill_balance
          rw [hperm]
          show ((if (!true) = true then _ else _ : Except RefillError Money × State)).2 = s
          rw [if_neg (by simp)]
          show ((if (amt == 0) = true then _ else _ : Except RefillError Money × State)).2 = s
          rw [if_pos hz]
        · by_cases hle : amt ≤ 0
          · left; unfold api_refill_balance
            rw [hperm]
            show ((if (!true) = true then _ else _ : Except RefillError Money × State)).2 = s
            rw [if_neg (by simp)]
            show ((if (amt == 0) = true then _ else _ : Except RefillError Money × State)).2 = s
            rw [if_neg hz, if_pos hle]
          · cases hmem : findActiveMemberById s mid with
            | none =>
              left; unfold api_refill_balance
              rw [hperm]
              show ((if (!true) = true then _ else _ : Except RefillError Money × State)).2 = s
              rw [if_neg (by simp)]
              show ((if (amt == 0) = true then _ else _ : Except RefillError Money × State)).2 = s
              rw [if_neg hz, if_neg hle, hmem]
            | some member =>
              right
              refine ⟨mid, amt, member, rfl, rfl, hle, hmem, ?_⟩
              rw [api_refill_balance_ok s isAdmin isStaffRole mid amt notes performedByNote member hperm hz hle hmem]
  · left; unfold api_refill_balance
    rw [if_pos (by simp [Bool.not_eq_true] at hperm; simp [hperm])]

/-! ### Shape lemmas for `api_process_refund` -/

theorem refundCredit_cases (s : State) (txn : SaleTransaction) (reason : String) :
    refundCredit s txn reason = s ∨
      ∃ mid member,
        txn.member_id = some mid ∧
        findMemberById s mid = some member ∧
        refundCredit s txn reason =
          { s with
              members := setMemberBalance s.members member.id (member.balance + txn.total_amount)
              balance_transactions := s.balance_transactions ++ [refundDepositEntry member txn reason] } := by
  cases hm : txn.member_id with
  | none => left; simp only [refundCredit, hm]
  | some mid =>
    cases hmem : findMemberById s mid with
    | none => left; simp only [refundCredit, hm, hmem]
    | some member =>
      right
      refine ⟨mid, member, rfl, hmem, ?_⟩
      simp only [refundCredit, hm, hmem]
      rfl

theorem api_process_refund_ok (s : State) (fullAccess : Bool) (userMember : Option Nat)
    (tid : Nat) (reason : String) (txn : SaleTransaction)
    (htxn : findCompletedTransaction s tid = some txn)
    (hacc : refundAccessDenied fullAccess userMember txn = false) :
    api_process_refund s fullAccess userMember (some tid) reason =
      (.ok txn.total_amount, refundSuccessState s txn reason) := by
  simp only [api_process_refund, htxn, hacc, Bool.false_eq_true, if_false]
  rfl

/-- Every run of `api_process_refund` either leaves the state untouched or
took the success branch with all guards established. -/
theorem api_process_refund_state_cases (s : State) (fullAccess : Bool)
    (userMember : Option Nat) (transaction_id : Option Nat) (reason : String) :
    (api_process_refund s fullAccess userMember transaction_id reason).2 = s ∨
      ∃ tid txn,
        transaction_id = some tid ∧
        findCompletedTransaction s tid = some txn ∧
        refundAccessDenied fullAccess userMember txn = false ∧
        (api_process_refund s fullAccess userMember transaction_id reason).2 =
          refundSuccessState s txn reason := by
  cases transaction_id with
  | none => left; rfl
  | some tid =>
    cases htxn : findCompletedTransaction s tid with
    | none =>
      left
      simp only [api_process_refund, htxn]
    | some txn =>
      cases hacc : refundAccessDenied fullAccess userMember txn with
      | true =>
        left
        simp only [api_process_refund, htxn, hacc, if_true]
      | false =>
        right
        refine ⟨tid, txn, rfl, htxn, hacc, ?_⟩
        rw [api_process_refund_ok s fullAccess userMember tid reason txn htxn hacc]

/-! ### Claim theorems -/

/-- C1: For every successful `verify_transfer_otp` of amount A from sender X
to recipient Y, X's balance decreases by exactly A, Y's balance increases by
exactly A, the sum of all balances is unchanged, and exactly two new ledger
entries are created: a deduction entry for X with `balance_before` = X's old
balance and `balance_after` = old balance - A, and a deposit entry for Y with
`balance_before` = Y's old balance and `balance_after` = old balance + A. -/
theorem c1_transfer_conservation (s : State) (mid : Nat) (code : String) (now : Int)
    (member otp_recipient : Member) (otp : FundTransferOTP)
    (hnd : (s.members.map Member.id).Nodup)
    (hcode : ¬ code = "")
    (hmem : findActiveMemberById s mid = some member)
    (hotp : s.transfer_otps.find? (otpLookup member.id code) = some otp)
    (hvalid : otp.is_valid now = true)
    (hbal : ¬ member.balance < otp.amount)
    (hrec : findActiveMemberByRfid s otp.recipient_rfid = some otp_recipient)
    (hne : ¬ otp_recipient.id = member.id) :
    verify_transfer_otp s mid code now
      = (.ok { amount := otp.amount
               sender_id := member.id
               recipient_id := otp_recipient.id
               sender_balance_before := member.balance
               sender_balance_after := member.balance - otp.amount
               recipient_balance_before := otp_recipient.balance
               recipient_balance_after := otp_recipient.balance + otp.amount },
         transferSuccessState s member otp_recipient otp now) ∧
    findMemberById (verify_transfer_otp s mid code now).2 member.id
      = some { member with balance := member.balance - otp.amount, last_transaction := some now } ∧
    findMemberById (verify_transfer_otp s mid code now).2 otp_recipient.id
      = some { otp_recipient with balance := otp_recipient.balance + otp.amount, last_transaction := some now } ∧
    sumBalances (verify_transfer_otp s mid code now).2 = sumBalances s ∧
    (verify_transfer_otp s mid code now).2.balance_transactions
      = s.balance_transactions ++
          [transferDeductionEntry member otp_recipient otp,
           transferDepositEntry member otp_recipient otp] := by
  have hok := verify_transfer_otp_ok s mid code now member otp otp_recipient hcode hmem hotp hvalid hbal hrec hne
  have hmm : member ∈ s.members := List.mem_of_find?_eq_some hmem
  have hrm : otp_recipient ∈ s.members := List.mem_of_find?_eq_some hrec
  refine ⟨hok, ?_, ?_, ?_, ?_⟩
  · rw [hok]
    exact transferMembers_find_sender s.members member otp_recipient otp now hnd hmm hne
  · rw [hok]
    exact transferMembers_find_recipient s.members member otp_recipient otp now hnd hrm hne
  · rw [hok]
    exact transferMembers_sum s.members member otp_recipient otp now hnd hmm hrm hne
  · rw [hok]
    rfl

/-- Closed instance of `c1_transfer_conservation` on the pending-transfer
fixture: 500.00 and 50.00 become 300.00 and 250.00, the total is unchanged,
and exactly the two expected entries are appended. -/
theorem c1_transfer_conservation_witness :
    findMemberById (verify_transfer_otp pendingTransferState 1 "123456" 1100).2 1
        = some { aliceW with balance := 30000, last_transaction := some 1100 } ∧
    findMemberById (verify_transfer_otp pendingTransferState 1 "123456" 1100).2 2
        = some { bobW with balance := 25000, last_transaction := some 1100 } ∧
    sumBalances (verify_transfer_otp pendingTransferState 1 "123456" 1100).2
        = sumBalances pendingTransferState ∧
    (verify_transfer_otp pendingTransferState 1 "123456" 1100).2.balance_transactions
        = pendingTransferState.balance_transactions ++
            [transferDeductionEntry aliceW bobW otpW, transferDepositEntry aliceW bobW otpW] := by
  have h := c1_transfer_conservation pendingTransferState 1 "123456" 1100 aliceW bobW otpW
    (by decide) (by decide) rfl rfl rfl (by decide) rfl (by decide)
  exact ⟨h.2.1, h.2.2.1, h.2.2.2.1, h.2.2.2.2⟩

theorem transferMembers_balance_nonneg (ms : List Member) (member recipient : Member)
    (otp : FundTransferOTP) (now : Int)
    (hall : ∀ m ∈ ms, 0 ≤ m.balance)
    (hsa : 0 ≤ member.balance - otp.amount)
    (hra : 0 ≤ recipient.balance + otp.amount) :
    ∀ m ∈ transferMembers ms member recipient otp now, 0 ≤ m.balance := by
  intro m hm
  unfold transferMembers setMemberLastTransaction setMemberBalance at hm
  rw [mem_updateMemberRow] at hm
  obtain ⟨m3, hm3, rfl⟩ := hm
  rw [mem_updateMemberRow] at hm3
  obtain ⟨m2, hm2, rfl⟩ := hm3
  rw [mem_updateMemberRow] at hm2
  obtain ⟨m1, hm1, rfl⟩ := hm2
  rw [mem_updateMemberRow] at hm1
  obtain ⟨m0, hm0, rfl⟩ := hm1
  have h0 := hall m0 hm0
  by_cases h1 : (m0.id == member.id) = true <;>
    by_cases h2 : (m0.id == recipient.id) = true <;>
      simp [h1, h2] <;>
        first
        | exact hra
        | exact h0
        | exact Int.sub_nonneg.mp hsa

/-- C2: For every `verify_transfer_otp` call where the sender's current
balance is strictly below the intent's amount, the call fails with the
insufficient-balance error and changes no state (balances, ledger and the
unused OTP are all untouched, so the caller may retry); and, given that every
transfer intent carries a positive amount, no balance ever becomes negative
through the transfer path. -/
theorem c2_insufficient_balance_safety :
    (∀ (s : State) (mid : Nat) (code : String) (now : Int)
       (member : Member) (otp : FundTransferOTP),
       ¬ code = "" →
       findActiveMemberById s mid = some member →
       s.transfer_otps.find? (otpLookup member.id code) = some otp →
       otp.is_valid now = true →
       member.balance < otp.amount →
       verify_transfer_otp s mid code now = (.error .insufficientBalance, s)) ∧
    (∀ (s : State) (mid : Nat) (code : String) (now : Int),
       (∀ m ∈ s.members, 0 ≤ m.balance) →
       (∀ o ∈ s.transfer_otps, 0 < o.amount) →
       ∀ m ∈ (verify_transfer_otp s mid code now).2.members, 0 ≤ m.balance) := by
  constructor
  · intro s mid code now member otp hcode hmem hotp hvalid hbal
    exact verify_transfer_otp_insufficient s mid code now member otp hcode hmem hotp hvalid hbal
  · intro s mid code now hall hpos m hm
    rcases verify_transfer_otp_state_cases s mid code now with hcase |
      ⟨member, otp, recipient, hcode, hmem, hotp, hvalid, hlow, hrec, hne, hcase⟩
    · rw [hcase] at hm
      exact hall m hm
    · rw [hcase] at hm
      have hm2 : m ∈ transferMembers s.members member recipient otp now := hm
      have hamt : 0 < otp.amount := hpos otp (List.mem_of_find?_eq_some hotp)
      have hrb : 0 ≤ recipient.balance := hall recipient (List.mem_of_find?_eq_some hrec)
      have hsa : 0 ≤ member.balance - otp.amount := Int.sub_nonneg.mpr (not_lt.mp hlow)
      have hra : 0 ≤ recipient.balance + otp.amount := add_nonneg hrb (le_of_lt hamt)
      exact transferMembers_balance_nonneg s.members member recipient otp now hall hsa hra m hm2

/-- Closed instance of `c2_insufficient_balance_safety`: with Alice's balance
at 100.00 and a pending intent over 200.00, verification fails with the
insufficient-balance error, the state is exactly unchanged, and no balance in
the result is negative. -/
theorem c2_insufficient_balance_safety_witness :
    verify_transfer_otp poorSenderState 1 "123456" 1100
        = (.error .insufficientBalance, poorSenderState) ∧
    (∀ m ∈ (verify_transfer_otp poorSenderState 1 "123456" 1100).2.members, 0 ≤ m.balance) := by
  constructor
  · exact c2_insufficient_balance_safety.1 poorSenderState 1 "123456" 1100 alicePoor otpW
      (by decide) rfl rfl rfl (by decide)
  · exact c2_insufficient_balance_safety.2 poorSenderState 1 "123456" 1100
      (by decide) (by decide)

/-- C6: For every unused transfer intent, the expiry time is set at creation
to creation time + 10 minutes (600 seconds), and a `verify_transfer_otp` at
any time strictly greater than the expiry fails with the expiry error even
when the supplied code matches the unused intent, leaving the state — both
parties' balances and ledgers — unchanged. -/
theorem c6_otp_expiry :
    (∀ (s : State) (mid : Nat) (rfid : String) (amount : Money) (notes code : String) (now : Int),
       (FundTransferOTP.create_otp s mid rfid amount notes code now).1.created_at = now ∧
       (FundTransferOTP.create_otp s mid rfid amount notes code now).1.expires_at = now + 10 * 60) ∧
    (∀ (s : State) (mid : Nat) (code : String) (now : Int)
       (member : Member) (otp : FundTransferOTP),
       ¬ code = "" →
       findActiveMemberById s mid = some member →
       s.transfer_otps.find? (otpLookup member.id code) = some otp →
       now > otp.expires_at →
       verify_transfer_otp s mid code now = (.error .otpExpired, s)) := by
  constructor
  · intro s mid rfid amount notes code now
    exact ⟨rfl, rfl⟩
  · intro s mid code now member otp hcode hmem hotp hexp
    have hp := List.find?_some hotp
    unfold otpLookup at hp
    simp only [Bool.and_eq_true, beq_iff_eq] at hp
    have hused : otp.is_used = false := by simpa using hp.2
    have hvalid : otp.is_valid now = false := by
      unfold FundTransferOTP.is_valid
      rw [hused]
      rw [if_neg (by simp)]
      rw [if_pos hexp]
    exact verify_transfer_otp_expired s mid code now member otp hcode hmem hotp hvalid

/-- Closed instance of `c6_otp_expiry`: the pending intent expires at 1600;
verifying the matching code at 1700 fails with the expiry error and leaves
the state untouched. -/
theorem c6_otp_expiry_witness :
    (FundTransferOTP.create_otp pendingTransferState 1 "CARD-B" 20000 "" "777777" 1000).1.expires_at
        = 1600 ∧
    verify_transfer_otp pendingTransferState 1 "123456" 1700
        = (.error .otpExpired, pendingTransferState) := by
  constructor
  · exact (c6_otp_expiry.1 pendingTransferState 1 "CARD-B" 20000 "" "777777" 1000).2
  · exact c6_otp_expiry.2 pendingTransferState 1 "123456" 1700 aliceW otpW
      (by decide) rfl rfl (by decide)

theorem sale_find_completed_none (ts : List SaleTransaction) (tid : Nat)
    (txn : SaleTransaction)
    (hnd : (ts.map SaleTransaction.id).Nodup)
    (hfind : ts.find? (fun t => t.id == tid) = some txn)
    (hst : ¬ txn.status = "completed") :
    ts.find? (fun t => t.id == tid && t.status == "completed") = none := by
  rw [List.find?_eq_none]
  intro t ht
  simp only [Bool.and_eq_true, beq_iff_eq, not_and]
  intro hid hstat
  have hmemtxn : txn ∈ ts := List.mem_of_find?_eq_some hfind
  have hid2 : txn.id = tid := by simpa using List.find?_some hfind
  have heq : t = txn := List.inj_on_of_nodup_map hnd ht hmemtxn (by rw [hid, hid2])
  rw [heq] at hstat
  exact hst hstat

/-- C8: For every transaction whose status is not "completed" (in particular
"cancelled" or "pending"), `api_process_refund` fails with the
not-refundable error, and the rejected attempt leaves the member's balance,
the ledger, the transaction's status and the inventory counters unchanged —
an already-cancelled transaction can never be refunded again through the
refund operation. -/
theorem c8_refund_requires_completed (s : State) (fullAccess : Bool)
    (userMember : Option Nat) (tid : Nat) (txn : SaleTransaction) (reason : String)
    (hnd : (s.sale_transactions.map SaleTransaction.id).Nodup)
    (hfind : s.sale_transactions.find? (fun t => t.id == tid) = some txn)
    (hst : ¬ txn.status = "completed") :
    api_process_refund s fullAccess userMember (some tid) reason
      = (.error .notRefundable, s) := by
  have hnone : findCompletedTransaction s tid = none :=
    sale_find_completed_none s.sale_transactions tid txn hnd hfind hst
  simp only [api_process_refund, hnone]

/-- Closed instance of `c8_refund_requires_completed`: refunding the
already-cancelled sale fails with the not-refundable error and changes
nothing. -/
theorem c8_refund_requires_completed_witness :
    api_process_refund cancelledSaleState true none (some 7) "again"
      = (.error .notRefundable, cancelledSaleState) :=
  c8_refund_requires_completed cancelledSaleState true none 7 cancelledSaleW "again"
    (by decide) rfl (by decide)

theorem transferMembersActive_find (ms : List Member) (mid : Nat)
    (member recipient : Member) (otp : FundTransferOTP) (now : Int)
    (hmem : ms.find? (fun m => m.id == mid && m.is_active) = some member)
    (hne : ¬ recipient.id = member.id) :
    (transferMembers ms member recipient otp now).find? (fun m => m.id == mid && m.is_active)
      = some { member with balance := member.balance - otp.amount, last_transaction := some now } := by
  unfold transferMembers
  rw [findActive_setLast, findActive_setLast, findActive_setBalance, findActive_setBalance, hmem]
  have hmr : member.id ≠ recipient.id := fun h => hne h.symm
  simp [hmr]

theorem find?_markOtpUsed_none (otps : List FundTransferOTP) (memberId : Nat)
    (code : String) (otp : FundTransferOTP) (now : Int)
    (hone : ∀ o1 ∈ otps, ∀ o2 ∈ otps, o1.is_used = false → o2.is_used = false →
        o1.member_id = o2.member_id → o1 = o2)
    (hfind : otps.find? (otpLookup memberId code) = some otp) :
    (markOtpUsed otps otp.id now).find? (otpLookup memberId code) = none := by
  rw [List.find?_eq_none]
  intro o ho
  unfold markOtpUsed at ho
  rw [List.mem_map] at ho
  obtain ⟨o0, ho0, rfl⟩ := ho
  unfold otpLookup
  by_cases hid : (o0.id == otp.id) = true
  · rw [if_pos hid]
    simp
  · rw [if_neg hid]
    intro hp
    simp only [Bool.and_eq_true, beq_iff_eq] at hp
    have hu : o0.is_used = false := by simpa using hp.2
    have hotpP := List.find?_some hfind
    unfold otpLookup at hotpP
    simp only [Bool.and_eq_true, beq_iff_eq] at hotpP
    have hu2 : otp.is_used = false := by simpa using hotpP.2
    have hmemOtp : otp ∈ otps := List.mem_of_find?_eq_some hfind
    have heq : o0 = otp :=
      hone o0 ho0 otp hmemOtp hu hu2 (by rw [hp.1.1, hotpP.1.1])
    apply hid
    rw [heq]
    simp

/-- C5 counterexample to the claim as stated: after the pending intent is
consumed by a successful transfer, re-submitting the same code fails with
`otpNotFound` (the source's "Invalid or expired OTP code" response from the
unused-only lookup), which is not the distinct `otpAlreadyUsed` error the
claim names. -/
theorem c5_second_verify_error_counterexample :
    (verify_transfer_otp (verify_transfer_otp pendingTransferState 1 "123456" 1100).2
        1 "123456" 1200).1 = .error .otpNotFound ∧
    TransferError.otpNotFound ≠ TransferError.otpAlreadyUsed := by
  constructor
  · rfl
  · decide

/-- C5 (amended): For every OTP already consumed by a successful transfer, a
second `verify_transfer_otp` with the same code from the same sender fails —
with `otpNotFound` (the "Invalid or expired OTP code" response: the used row
no longer matches the unused-only lookup; the source has no distinct
already-used error) — and moves no funds: the second attempt returns the
post-transfer state exactly unchanged. -/
theorem c5_second_verify_fails (s : State) (mid : Nat) (code : String) (now now2 : Int)
    (member otp_recipient : Member) (otp : FundTransferOTP)
    (hone : atMostOneUnusedPerMember s)
    (hcode : ¬ code = "")
    (hmem : findActiveMemberById s mid = some member)
    (hotp : s.transfer_otps.find? (otpLookup member.id code) = some otp)
    (hvalid : otp.is_valid now = true)
    (hbal : ¬ member.balance < otp.amount)
    (hrec : findActiveMemberByRfid s otp.recipient_rfid = some otp_recipient)
    (hne : ¬ otp_recipient.id = member.id) :
    (verify_transfer_otp s mid code now).1
      = .ok { amount := otp.amount
              sender_id := member.id
              recipient_id := otp_recipient.id
              sender_balance_before := member.balance
              sender_balance_after := member.balance - otp.amount
              recipient_balance_before := otp_recipient.balance
              recipient_balance_after := otp_recipient.balance + otp.amount } ∧
    verify_transfer_otp ((verify_transfer_otp s mid code now).2) mid code now2
      = (.error .otpNotFound, (verify_transfer_otp s mid code now).2) := by
  have hok := verify_transfer_otp_ok s mid code now member otp otp_recipient hcode hmem hotp hvalid hbal hrec hne
  constructor
  · rw [hok]
  · rw [hok]
    have hmem2 : findActiveMemberById (transferSuccessState s member otp_recipient otp now) mid
        = some { member with balance := member.balance - otp.amount, last_transaction := some now } :=
      transferMembersActive_find s.members mid member otp_recipient otp now hmem hne
    have hnone : (transferSuccessState s member otp_recipient otp now).transfer_otps.find?
        (otpLookup member.id code) = none :=
      find?_markOtpUsed_none s.transfer_otps member.id code otp now hone hotp
    exact verify_transfer_otp_notFound (transferSuccessState s member otp_recipient otp now)
      mid code now2 _ hcode hmem2 hnone

/-- Closed instance of `c5_second_verify_fails` on the pending-transfer
fixture: the first verification succeeds and the second returns the
not-found error with the state unchanged. -/
theorem c5_second_verify_fails_witness :
    verify_transfer_otp ((verify_transfer_otp pendingTransferState 1 "123456" 1100).2)
        1 "123456" 1200
      = (.error .otpNotFound, (verify_transfer_otp pendingTransferState 1 "123456" 1100).2) :=
  (c5_second_verify_fails pendingTransferState 1 "123456" 1100 1200 aliceW bobW otpW
    (by
      intro o1 h1 o2 h2 hu1 hu2 hm
      have e1 : o1 = otpW := by simpa [pendingTransferState] using h1
      have e2 : o2 = otpW := by simpa [pendingTransferState] using h2
      rw [e1, e2])
    (by decide) rfl rfl rfl (by decide) rfl (by decide)).2

theorem filter_filter_not {α : Type} (p : α → Bool) (l : List α) :
    (l.filter (fun a => !(p a))).filter p = [] := by
  induction l with
  | nil => rfl
  | cons a t ih =>
    by_cases h : p a = true
    · simp only [List.filter_cons, h, Bool.not_true, Bool.false_eq_true, if_false]
      exact ih
    · have h2 : p a = false := by simpa using h
      simp only [List.filter_cons, h2, Bool.not_false, if_true, Bool.false_eq_true, if_false]
      exact ih

theorem create_otp_unique_unused (s : State) (mid : Nat) (rfid : String)
    (amount : Money) (notes code : String) (now : Int) :
    ((FundTransferOTP.create_otp s mid rfid amount notes code now).2.transfer_otps.filter
        (fun o => o.member_id == mid && o.is_used == false))
      = [(FundTransferOTP.create_otp s mid rfid amount notes code now).1] := by
  unfold FundTransferOTP.create_otp
  simp only [List.filter_append]
  rw [filter_filter_not (fun o => o.member_id == mid && o.is_used == false) s.transfer_otps]
  simp [List.filter_cons]

theorem api_refill_balance_otps (s : State) (a b : Bool) (m : Option Nat)
    (amt : Option Money) (n pb : String) :
    (api_refill_balance s a b m amt n pb).2.transfer_otps = s.transfer_otps := by
  rcases api_refill_balance_state_cases s a b m amt n pb with h | ⟨mid, am, mem, _, _, _, _, h⟩
  · rw [h]
  · rw [h]
    rfl

theorem refundCredit_otps (s : State) (txn : SaleTransaction) (reason : String) :
    (refundCredit s txn reason).transfer_otps = s.transfer_otps := by
  rcases refundCredit_cases s txn reason with h | ⟨mid, mem, _, _, h⟩
  · rw [h]
  · rw [h]

theorem api_process_refund_otps (s : State) (fa : Bool) (um : Option Nat)
    (t : Option Nat) (r : String) :
    (api_process_refund s fa um t r).2.transfer_otps = s.transfer_otps := by
  rcases api_process_refund_state_cases s fa um t r with h | ⟨tid, txn, _, _, _, h⟩
  · rw [h]
  · rw [h]
    show (refundCredit s txn r).transfer_otps = s.transfer_otps
    exact refundCredit_otps s txn r

theorem otpsAtMostOneUnused_mark (otps : List FundTransferOTP) (oid : Nat) (now : Int)
    (hone : otpsAtMostOneUnused otps) :
    otpsAtMostOneUnused (markOtpUsed otps oid now) := by
  intro o1 h1 o2 h2 hu1 hu2 hm
  unfold markOtpUsed at h1 h2
  obtain ⟨a1, ha1, rfl⟩ := List.mem_map.mp h1
  obtain ⟨a2, ha2, rfl⟩ := List.mem_map.mp h2
  by_cases e1 : (a1.id == oid) = true
  · rw [if_pos e1] at hu1
    simp at hu1
  · rw [if_neg e1] at hu1 hm ⊢
    by_cases e2 : (a2.id == oid) = true
    · rw [if_pos e2] at hu2
      simp at hu2
    · rw [if_neg e2] at hu2 hm ⊢
      exact hone a1 ha1 a2 ha2 hu1 hu2 hm

theorem otpsAtMostOneUnused_create (s : State) (mid : Nat) (rfid : String)
    (amount : Money) (notes code : String) (now : Int)
    (hone : otpsAtMostOneUnused s.transfer_otps) :
    otpsAtMostOneUnused
      (FundTransferOTP.create_otp s mid rfid amount notes code now).2.transfer_otps := by
  intro o1 h1 o2 h2 hu1 hu2 hm
  unfold FundTransferOTP.create_otp at h1 h2
  simp only [List.mem_append, List.mem_filter, List.mem_singleton] at h1 h2
  rcases h1 with ⟨hin1, hc1⟩ | rfl
  · rcases h2 with ⟨hin2, hc2⟩ | rfl
    · exact hone o1 hin1 o2 hin2 hu1 hu2 hm
    · exfalso
      have hP : (o1.member_id == mid && o1.is_used == false) = true := by
        simp only [Bool.and_eq_true, beq_iff_eq]
        exact ⟨by simpa using hm, by simp [hu1]⟩
      rw [hP] at hc1
      simp at hc1
  · rcases h2 with ⟨hin2, hc2⟩ | rfl
    · exfalso
      have hP : (o2.member_id == mid && o2.is_used == false) = true := by
        simp only [Bool.and_eq_true, beq_iff_eq]
        exact ⟨by simpa using hm.symm, by simp [hu2]⟩
      rw [hP] at hc2
      simp at hc2
    · rfl

theorem atMostOne_applyOp (s : State) (op : Op) (hone : atMostOneUnusedPerMember s) :
    atMostOneUnusedPerMember (applyOp s op) := by
  cases op with
  | refill a b m amt n pb =>
    show otpsAtMostOneUnused (api_refill_balance s a b m amt n pb).2.transfer_otps
    rw [api_refill_balance_otps]
    exact hone
  | transferRequest mid rfid amt n code now =>
    rcases request_transfer_otp_state_cases s mid rfid amt n code now with h |
      ⟨member, recipient, _, _, _, _, _, _, h⟩
    · show atMostOneUnusedPerMember (request_transfer_otp s mid rfid amt n code now).2
      rw [h]
      exact hone
    · show atMostOneUnusedPerMember (request_transfer_otp s mid rfid amt n code now).2
      rw [h]
      exact otpsAtMostOneUnused_create s member.id rfid amt n code now hone
  | transferVerify mid code now =>
    rcases verify_transfer_otp_state_cases s mid code now with h |
      ⟨member, otp, recipient, _, _, _, _, _, _, _, h⟩
    · show atMostOneUnusedPerMember (verify_transfer_otp s mid code now).2
      rw [h]
      exact hone
    · show atMostOneUnusedPerMember (verify_transfer_otp s mid code now).2
      rw [h]
      show otpsAtMostOneUnused (markOtpUsed s.transfer_otps otp.id now)
      exact otpsAtMostOneUnused_mark s.transfer_otps otp.id now hone
  | refund fa um t r =>
    show otpsAtMostOneUnused (api_process_refund s fa um t r).2.transfer_otps
    rw [api_process_refund_otps]
    exact hone

theorem atMostOne_applyOps (s : State) (ops : List Op)
    (hone : atMostOneUnusedPerMember s) :
    atMostOneUnusedPerMember (applyOps s ops) := by
  induction ops generalizing s with
  | nil => exact hone
  | cons op t ih => exact ih (applyOp s op) (atMostOne_applyOp s op hone)

theorem create_otp_supersedes (s : State) (mid : Nat) (rfid : String) (amount : Money)
    (notes code2 : String) (now : Int) (c1 : String) (now2 : Int) (member : Member)
    (hc1 : ¬ c1 = "") (hneq : ¬ c1 = code2)
    (hmem : findActiveMemberById s mid = some member) :
    verify_transfer_otp (FundTransferOTP.create_otp s mid rfid amount notes code2 now).2
        mid c1 now2
      = (.error .otpNotFound,
         (FundTransferOTP.create_otp s mid rfid amount notes code2 now).2) := by
  have hmid : member.id = mid := by
    have hp := List.find?_some hmem
    simp only [Bool.and_eq_true, beq_iff_eq] at hp
    exact hp.1
  have hmem2 : findActiveMemberById
      (FundTransferOTP.create_otp s mid rfid amount notes code2 now).2 mid = some member := hmem
  have hnone : (FundTransferOTP.create_otp s mid rfid amount notes code2 now).2.transfer_otps.find?
      (otpLookup member.id c1) = none := by
    rw [List.find?_eq_none]
    intro o ho
    unfold FundTransferOTP.create_otp at ho
    simp only [List.mem_append, List.mem_filter, List.mem_singleton] at ho
    unfold otpLookup
    rcases ho with ⟨hoin, hcond⟩ | rfl
    · intro hp
      simp only [Bool.and_eq_true, beq_iff_eq] at hp
      have hP : (o.member_id == mid && o.is_used == false) = true := by
        simp only [Bool.and_eq_true, beq_iff_eq]
        exact ⟨by rw [hp.1.1, hmid], by simpa using hp.2⟩
      rw [hP] at hcond
      simp at hcond
    · intro hp
      simp only [Bool.and_eq_true, beq_iff_eq] at hp
      exact hneq (by simpa using hp.1.2.symm)
  exact verify_transfer_otp_notFound _ mid c1 now2 member hc1 hmem2 hnone

/-- C7: For every sender, at most one unused transfer intent exists at any
time: `FundTransferOTP.create_otp` removes all of the sender's prior unused
intents before creating the new one (so afterwards the new intent is the
sender's only unused one), the at-most-one-unused invariant is preserved by
every sequence of core operations, and a subsequent `verify_transfer_otp`
with a superseded intent's code fails with the not-found error. -/
theorem c7_single_unused_intent :
    (∀ (s : State) (mid : Nat) (rfid : String) (amount : Money) (notes code : String) (now : Int),
       ((FundTransferOTP.create_otp s mid rfid amount notes code now).2.transfer_otps.filter
           (fun o => o.member_id == mid && o.is_used == false))
         = [(FundTransferOTP.create_otp s mid rfid amount notes code now).1]) ∧
    (∀ (s : State) (ops : List Op),
       atMostOneUnusedPerMember s → atMostOneUnusedPerMember (applyOps s ops)) ∧
    (∀ (s : State) (mid : Nat) (rfid : String) (amount : Money)
       (notes code2 : String) (now : Int) (c1 : String) (now2 : Int) (member : Member),
       ¬ c1 = "" → ¬ c1 = code2 →
       findActiveMemberById s mid = some member →
       verify_transfer_otp (FundTransferOTP.create_otp s mid rfid amount notes code2 now).2
           mid c1 now2
         = (.error .otpNotFound,
            (FundTransferOTP.create_otp s mid rfid amount notes code2 now).2)) := by
  refine ⟨?_, ?_, ?_⟩
  · intro s mid rfid amount notes code now
    exact create_otp_unique_unused s mid rfid amount notes code now
  · intro s ops hone
    exact atMostOne_applyOps s ops hone
  · intro s mid rfid amount notes code2 now c1 now2 member hc1 hneq hmem
    exact create_otp_supersedes s mid rfid amount notes code2 now c1 now2 member hc1 hneq hmem

/-- Closed instance of `c7_single_unused_intent`: issuing a fresh intent for
Alice leaves exactly the fresh intent unused for her, and verifying the
superseded code "123456" afterwards fails with the not-found error. -/
theorem c7_single_unused_intent_witness :
    ((FundTransferOTP.create_otp pendingTransferState 1 "CARD-B" 5000 "" "999999" 1200).2.transfer_otps.filter
        (fun o => o.member_id == 1 && o.is_used == false))
      = [(FundTransferOTP.create_otp pendingTransferState 1 "CARD-B" 5000 "" "999999" 1200).1] ∧
    verify_transfer_otp
        (FundTransferOTP.create_otp pendingTransferState 1 "CARD-B" 5000 "" "999999" 1200).2
        1 "123456" 1300
      = (.error .otpNotFound,
         (FundTransferOTP.create_otp pendingTransferState 1 "CARD-B" 5000 "" "999999" 1200).2) := by
  constructor
  · exact c7_single_unused_intent.1 pendingTransferState 1 "CARD-B" 5000 "" "999999" 1200
  · exact c7_single_unused_intent.2.2 pendingTransferState 1 "CARD-B" 5000 "" "999999" 1200
      "123456" 1300 aliceW (by decide) (by decide) rfl

theorem map_id_setLast (ms : List Member) (mid : Nat) (now : Int) :
    (setMemberLastTransaction ms mid now).map Member.id = ms.map Member.id :=
  updateMemberRow_map_id ms mid (fun m => { m with last_transaction := some now }) (fun _ => rfl)

theorem ledgerSum_pair (d p : BalanceTransaction) (k : Nat) :
    ledgerSum [d, p] k
      = (if (d.member_id == k) = true then d.signedAmount else 0)
        + (if (p.member_id == k) = true then p.signedAmount else 0) := by
  show ledgerSum ([d] ++ [p]) k = _
  rw [ledgerSum_append, ledgerSum_singleton, ledgerSum_singleton]

theorem ledgerInvariant_single_deposit (s : State) (member : Member) (e : BalanceTransaction)
    (hinv : ledgerInvariant s) (hmm : member ∈ s.members)
    (heid : e.member_id = member.id) :
    ledgerInvariant
      { s with
          members := setMemberBalance s.members member.id (member.balance + e.signedAmount)
          balance_transactions := s.balance_transactions ++ [e] } := by
  obtain ⟨hnd, hbal⟩ := hinv
  constructor
  · show ((setMemberBalance s.members member.id _).map Member.id).Nodup
    rw [map_id_setBalance]
    exact hnd
  · intro m hm
    have hm2 : m ∈ updateMemberRow s.members member.id
        (fun m => { m with balance := member.balance + e.signedAmount }) := hm
    rw [mem_updateMemberRow] at hm2
    obtain ⟨m0, hm0, rfl⟩ := hm2
    show _ = ledgerSum (s.balance_transactions ++ [e]) _
    rw [ledgerSum_append, ledgerSum_singleton]
    by_cases hid : (m0.id == member.id) = true
    · have heqm : m0 = member := member_id_unique hnd hm0 hmm (by simpa using hid)
      rw [heqm]
      simp [heid, hbal member hmm]
    · rw [if_neg hid]
      have hne2 : (e.member_id == m0.id) = false := by
        simp only [beq_eq_false_iff_ne, ne_eq, heid]
        intro hcontra
        exact hid (by simp [hcontra])
      simp [hne2, hbal m0 hm0]

theorem ledgerInvariant_transfer (s : State) (member recipient : Member)
    (otp : FundTransferOTP) (now : Int)
    (hinv : ledgerInvariant s) (hmm : member ∈ s.members) (hrm : recipient ∈ s.members)
    (hne : ¬ recipient.id = member.id) :
    ledgerInvariant (transferSuccessState s member recipient otp now) := by
  obtain ⟨hnd, hbal⟩ := hinv
  constructor
  · show ((transferMembers s.members member recipient otp now).map Member.id).Nodup
    unfold transferMembers
    rw [map_id_setLast, map_id_setLast, map_id_setBalance, map_id_setBalance]
    exact hnd
  · intro m hm
    have hm4 : m ∈ transferMembers s.members member recipient otp now := hm
    unfold transferMembers setMemberLastTransaction setMemberBalance at hm4
    rw [mem_updateMemberRow] at hm4
    obtain ⟨m3, hm3, rfl⟩ := hm4
    rw [mem_updateMemberRow] at hm3
    obtain ⟨m2, hm2, rfl⟩ := hm3
    rw [mem_updateMemberRow] at hm2
    obtain ⟨m1, hm1, rfl⟩ := hm2
    rw [mem_updateMemberRow] at hm1
    obtain ⟨m0, hm0, rfl⟩ := hm1
    show _ = ledgerSum (s.balance_transactions ++
        [transferDeductionEntry member recipient otp, transferDepositEntry member recipient otp]) _
    rw [ledgerSum_append, ledgerSum_pair]
    by_cases h2 : (m0.id == recipient.id) = true
    · have heqr : m0 = recipient := member_id_unique hnd hm0 hrm (by simpa using h2)
      have h1 : (m0.id == member.id) = false := by
        simp only [beq_eq_false_iff_ne, ne_eq]
        rw [heqr]
        exact hne
      rw [heqr] at h1 h2 ⊢
      have hne1 : ¬ recipient.id = member.id := by simpa using h1
      have hne2 : ¬ member.id = recipient.id := fun h => hne1 h.symm
      simp [h1, h2, transferDeductionEntry, transferDepositEntry,
        BalanceTransaction.signedAmount, hbal recipient hrm, hne1, hne2]
    · by_cases h1 : (m0.id == member.id) = true
      · have heqm : m0 = member := member_id_unique hnd hm0 hmm (by simpa using h1)
        rw [heqm] at h1 h2 ⊢
        have hne1 : ¬ member.id = recipient.id := by simpa using h2
        have hne2 : ¬ recipient.id = member.id := fun h => hne1 h.symm
        simp [h1, h2, transferDeductionEntry, transferDepositEntry,
          BalanceTransaction.signedAmount, hbal member hmm, hne1, hne2]
        ring
      · have hne1 : ¬ m0.id = member.id := by simpa using h1
        have hne2 : ¬ m0.id = recipient.id := by simpa using h2
        have hne3 : ¬ member.id = m0.id := fun h => hne1 h.symm
        have hne4 : ¬ recipient.id = m0.id := fun h => hne2 h.symm
        simp [h1, h2, transferDeductionEntry, transferDepositEntry,
          BalanceTransaction.signedAmount, hbal m0 hm0, hne1, hne2, hne3, hne4]

theorem ledgerInvariant_refundCredit (s : State) (txn : SaleTransaction) (reason : String)
    (hinv : ledgerInvariant s) : ledgerInvariant (refundCredit s txn reason) := by
  rcases refundCredit_cases s txn reason with h | ⟨mid, mem, hmid, hfind, h⟩
  · rw [h]
    exact hinv
  · rw [h]
    have hmm : mem ∈ s.members := List.mem_of_find?_eq_some hfind
    exact ledgerInvariant_single_deposit s mem (refundDepositEntry mem txn reason) hinv hmm rfl

theorem ledgerInvariant_applyOp (s : State) (op : Op) (hinv : ledgerInvariant s) :
    ledgerInvariant (applyOp s op) := by
  cases op with
  | refill a b m amt n pb =>
    rcases api_refill_balance_state_cases s a b m amt n pb with h | ⟨mid, am, mem, hm1, hm2, hle, hfind, h⟩
    · show ledgerInvariant (api_refill_balance s a b m amt n pb).2
      rw [h]
      exact hinv
    · show ledgerInvariant (api_refill_balance s a b m amt n pb).2
      rw [h]
      have hmm : mem ∈ s.members := List.mem_of_find?_eq_some hfind
      exact ledgerInvariant_single_deposit s mem (refillDepositEntry mem am n pb) hinv hmm rfl
  | transferRequest mid rfid amt n code now =>
    rcases request_transfer_otp_state_cases s mid rfid amt n code now with h |
      ⟨member, recipient, _, _, _, _, _, _, h⟩
    · show ledgerInvariant (request_transfer_otp s mid rfid amt n code now).2
      rw [h]
      exact hinv
    · show ledgerInvariant (request_transfer_otp s mid rfid amt n code now).2
      rw [h]
      exact hinv
  | transferVerify mid code now =>
    rcases verify_transfer_otp_state_cases s mid code now with h |
      ⟨member, otp, recipient, hcode, hmem, hotp, hvalid, hlow, hrec, hne2, h⟩
    · show ledgerInvariant (verify_transfer_otp s mid code now).2
      rw [h]
      exact hinv
    · show ledgerInvariant (verify_transfer_otp s mid code now).2
      rw [h]
      exact ledgerInvariant_transfer s member recipient otp now hinv
        (List.mem_of_find?_eq_some hmem) (List.mem_of_find?_eq_some hrec) hne2
  | refund fa um t r =>
    rcases api_process_refund_state_cases s fa um t r with h | ⟨tid, txn, _, _, _, h⟩
    · show ledgerInvariant (api_process_refund s fa um t r).2
      rw [h]
      exact hinv
    · show ledgerInvariant (api_process_refund s fa um t r).2
      rw [h]
      exact ledgerInvariant_refundCredit s txn r hinv

/-- C4: For every member account, after any sequence of the core operations
(balance refill, transfer request, transfer execution, refund), the account's
balance equals the sum of its deposit ledger entry amounts minus the sum of
its deduction ledger entry amounts — every operation that changes a balance
writes the matching ledger entry in the same step, so the invariant is
preserved from any state in which it holds. -/
theorem c4_balance_matches_ledger (s : State) (ops : List Op)
    (hinv : ledgerInvariant s) : ledgerInvariant (applyOps s ops) := by
  induction ops generalizing s with
  | nil => exact hinv
  | cons op t ih => exact ih (applyOp s op) (ledgerInvariant_applyOp s op hinv)

/-- Closed instance of `c4_balance_matches_ledger`: starting from two
zero-balance accounts with an empty ledger, a refill of 300.00 to Alice, a
transfer request and its verification leave every balance equal to its
ledger sum. -/
theorem c4_balance_matches_ledger_witness :
    ledgerInvariant
      (applyOps zeroState
        [Op.refill true false (some 1) (some 30000) "" "Balance refill by admin",
         Op.transferRequest 1 "CARD-B" 10000 "" "654321" 50,
         Op.transferVerify 1 "654321" 60]) :=
  c4_balance_matches_ledger zeroState
    [Op.refill true false (some 1) (some 30000) "" "Balance refill by admin",
     Op.transferRequest 1 "CARD-B" 10000 "" "654321" 50,
     Op.transferVerify 1 "654321" 60]
    (by
      constructor
      · decide
      · intro m hm
        rcases (by simpa [zeroState] using hm :
            m = { aliceW with balance := 0 } ∨ m = { bobW with balance := 0 }) with rfl | rfl <;> rfl)

theorem find?_updateSaleRow (ts : List SaleTransaction) (tid : Nat)
    (g : SaleTransaction → SaleTransaction) (hg : ∀ t, (g t).id = t.id) :
    (ts.map (fun t => if t.id == tid then g t else t)).find? (fun t => t.id == tid)
      = (ts.find? (fun t => t.id == tid)).map (fun t => if t.id == tid then g t else t) := by
  induction ts with
  | nil => rfl
  | cons a t ih =>
    rw [List.map_cons]
    by_cases hpa : (a.id == tid) = true
    · have hpa2 : ((if (a.id == tid) = true then g a else a).id == tid) = true := by
        rw [if_pos hpa, hg]
        exact hpa
      rw [List.find?_cons, List.find?_cons, hpa2, hpa]
      have hpa3 : a.id = tid := by simpa using hpa
      simp [hpa3]
    · have hpa1 : (a.id == tid) = false := by simpa using hpa
      have hpa2 : ((if (a.id == tid) = true then g a else a).id == tid) = false := by
        rw [if_neg hpa]
        exact hpa1
      rw [List.find?_cons, List.find?_cons, hpa2, hpa1]
      exact ih

theorem applyTransactionUpdate_status_only (t : SaleTransaction) (tid : Nat) (v : String)
    (hv : v ∈ STATUS_CHOICES) :
    applyTransactionUpdate t
        { transaction_id := some tid, status := some v, payment_method := none,
          amount_paid := none, amount_from_balance := none, notes := none }
      = { t with status := v } := by
  show (if v ∈ STATUS_CHOICES then { t with status := v } else t) = { t with status := v }
  rw [if_pos hv]

/-- C10: For every existing transaction and every status value in the
transaction status enumeration, the admin operation `api_update_transaction`
sets the transaction's status to that value regardless of the current
status; in particular the already-cancelled (refunded) sale can be set back
to "completed", after which `api_process_refund` accepts it again — the
completed-to-cancelled transition is not one-way across the public
interface. -/
theorem c10_admin_update_reopens_refund :
    (∀ (s : State) (tid : Nat) (txn : SaleTransaction) (v : String),
       s.sale_transactions.find? (fun t => t.id == tid) = some txn →
       v ∈ STATUS_CHOICES →
       (api_update_transaction s true
           { transaction_id := some tid, status := some v, payment_method := none,
             amount_paid := none, amount_from_balance := none, notes := none }).1
         = .ok () ∧
       ((api_update_transaction s true
           { transaction_id := some tid, status := some v, payment_method := none,
             amount_paid := none, amount_from_balance := none, notes := none }).2.sale_transactions.find?
           (fun t => t.id == tid))
         = some { txn with status := v }) ∧
    (api_process_refund
        (api_update_transaction cancelledSaleState true
          { transaction_id := some 7, status := some "completed", payment_method := none,
            amount_paid := none, amount_from_balance := none, notes := none }).2
        true none (some 7) "re-refund").1
      = .ok 15000 := by
  constructor
  · intro s tid txn v hfind hv
    have h1 : api_update_transaction s true
        { transaction_id := some tid, status := some v, payment_method := none,
          amount_paid := none, amount_from_balance := none, notes := none }
        = (.ok (),
           { s with
              sale_transactions := List.map
                (fun t =>
                  if t.id == tid then
                    applyTransactionUpdate t
                      { transaction_id := some tid, status := some v, payment_method := none,
                        amount_paid := none, amount_from_balance := none, notes := none }
                  else t)
                s.sale_transactions }) := by
      simp only [api_update_transaction, Bool.not_true, Bool.false_eq_true, if_false, hfind]
    constructor
    · rw [h1]
    · rw [h1]
      have hg : ∀ t, (applyTransactionUpdate t
          { transaction_id := some tid, status := some v, payment_method := none,
            amount_paid := none, amount_from_balance := none, notes := none }).id = t.id := by
        intro t
        rw [applyTransactionUpdate_status_only t tid v hv]
      rw [find?_updateSaleRow s.sale_transactions tid _ hg, hfind]
      rw [Option.map_some']
      have htid : (txn.id == tid) = true := by simpa using List.find?_some hfind
      rw [if_pos htid, applyTransactionUpdate_status_only txn tid v hv]
  · rfl

/-- Closed instance of the universally quantified part of
`c10_admin_update_reopens_refund`: setting the cancelled sale's status back
to "completed" succeeds and the stored row then carries that status. -/
theorem c10_admin_update_reopens_refund_witness :
    ((api_update_transaction cancelledSaleState true
        { transaction_id := some 7, status := some "completed", payment_method := none,
          amount_paid := none, amount_from_balance := none, notes := none }).2.sale_transactions.find?
        (fun t => t.id == 7))
      = some { cancelledSaleW with status := "completed" } :=
  (c10_admin_update_reopens_refund.1 cancelledSaleState 7 cancelledSaleW "completed"
    rfl (by decide)).2

/-- C3 (code bug): `api_process_refund` runs with no `transaction.atomic()`
block (each ORM write commits immediately), so a failure after the balance
credit — for example an exception while restoring stock or saving the
transaction — leaves partial state behind: in the crash-after-credit run the
member has been credited 150.00 and the deposit ledger entry exists while
the transaction's status is still "completed" and the stock is unrestored,
whereas the completed run flips the status to "cancelled".  The spec requires
every financial operation to be all-or-nothing. -/
theorem c3_refund_not_atomic :
    (findMemberById
        (api_process_refund_crashAfterCredit refundableState true none (some 7) "damaged")
        1).map Member.balance = some 65000 ∧
    (api_process_refund_crashAfterCredit refundableState true none (some 7)
        "damaged").balance_transactions.length = 1 ∧
    ((api_process_refund_crashAfterCredit refundableState true none (some 7)
        "damaged").sale_transactions.find? (fun t => t.id == 7)).map SaleTransaction.status
      = some "completed" ∧
    ((api_process_refund_crashAfterCredit refundableState true none (some 7)
        "damaged").products.find? (fun p => p.id == 5)).map Product.stock_quantity
      = some 1 ∧
    ((api_process_refund refundableState true none (some 7)
        "damaged").2.sale_transactions.find? (fun t => t.id == 7)).map SaleTransaction.status
      = some "cancelled" :=
  ⟨rfl, rfl, rfl, rfl, rfl⟩

end Genglo
